import Mathlib

/-!
MapTag: address codes, duplicate detection, address creation and verification

A shallow embedding of `backend/utils/addressGenerator.js`,
`backend/utils/duplicateDetection.js`, the creation route of
`backend/routes/addresses.js` and the two processing routes of
`backend/routes/verification.js`.

Conventions of the embedding:

* a JavaScript string is the list of its UTF-16 code units (`JSString`); a value
  that may also be `null` or `undefined` is a `JSText`;
* a JavaScript number that holds a coordinate, a distance or a score is an
  exact rational (`ℚ`); integers produced by `Math.floor` are `Int`;
* library calls whose result the program only consumes (`Math.random`,
  `String.prototype.toLowerCase`, the PostGIS distance) are parameters;
* the persisted rows are a value passed from request to request; the
  statements of one request run on one connection, one request at a time.
-/

namespace MapTag

/-! ## JavaScript strings -/

/-- A JavaScript string: the sequence of its UTF-16 code units. -/
abbrev JSString := List Nat

/-- The code units of a string literal (one unit per character of the Basic
Multilingual Plane). -/
def js (s : String) : JSString := s.toList.map Char.toNat

/-- A value that is a string, `null` or `undefined`: a request field, a function
argument or a nullable text column. The operator `===` on such values is
equality of this type. -/
inductive JSText where
  | undefined
  | null
  | text (s : JSString)
deriving DecidableEq

/-- Character class `[A-Z]`. -/
def isUpperAZ (c : Nat) : Bool := decide (65 ≤ c) && decide (c ≤ 90)

/-- Character class `\d`, which in JavaScript is `[0-9]`. -/
def isDigit09 (c : Nat) : Bool := decide (48 ≤ c) && decide (c ≤ 57)

/-- Character class `[A-Z0-9]`. -/
def isUpperAZ09 (c : Nat) : Bool := isUpperAZ c || isDigit09 c

/-- The method `toUpperCase` on the code units that `Number.prototype.toString(36)`
can produce (`0-9`, `a-z`, `.`, `-`): the letters `a-z` move to `A-Z`, every
other ASCII unit is unchanged. -/
def toUpperCase (s : JSString) : JSString :=
  s.map (fun c => if 97 ≤ c ∧ c ≤ 122 then c - 32 else c)

/-- The method `substring(a, b)` for `0 ≤ a ≤ b`. -/
def substring (s : JSString) (a b : Nat) : JSString := (s.drop a).take (b - a)

/-- The method `slice(-k)`: the last `k` code units (the whole string when it is
shorter). -/
def sliceLast (s : JSString) (k : Nat) : JSString := s.drop (s.length - k)

/-- Decimal digits of a natural number, most significant first, prepended to
`acc`; `fuel` bounds the number of digits. -/
def natToDigits : Nat → Nat → JSString → JSString
  | 0, _, acc => acc
  | fuel + 1, n, acc =>
    if n < 10 then (48 + n) :: acc
    else natToDigits fuel (n / 10) ((48 + n % 10) :: acc)

/-- Decimal text of a natural number. -/
def natToString (n : Nat) : JSString := natToDigits (n + 1) n []

/-- Decimal text of an integer-valued number, as produced by a template
literal (magnitudes below `1e21`, where no exponent is printed). -/
def intToString (z : Int) : JSString :=
  if z < 0 then 45 :: natToString z.natAbs else natToString z.natAbs

/-! ## `addressGenerator.js` -/

/-- Source: `determineCityCode(lat, lon)`, the chain of bounding-box tests. -/
def determineCityCode (lat lon : ℚ) : JSString :=
  if lat > 12.2 ∧ lat < 12.5 ∧ lon > -1.7 ∧ lon < -1.3 then js "OUA"
  else if lat > 11.0 ∧ lat < 11.3 ∧ lon > -4.5 ∧ lon < -4.0 then js "BOB"
  else if lat > 12.1 ∧ lat < 12.4 ∧ lon > -2.5 ∧ lon < -2.2 then js "KOU"
  else if lat > 10.5 ∧ lat < 10.8 ∧ lon > -4.9 ∧ lon < -4.6 then js "BAN"
  else if lat > 13.4 ∧ lat < 13.7 ∧ lon > -2.6 ∧ lon < -2.2 then js "OUA"
  else if lat > 11.9 ∧ lat < 12.2 ∧ lon > 0.2 ∧ lon < 0.5 then js "FAD"
  else js "OTH"

/-- Source: `generateAddressCode(latitude, longitude, placeName)`.
`rnd` is the text of `Math.random().toString(36)` for the value drawn in this
call: `"0"` when the value is `0`, otherwise `"0."` followed by the base-36
digits of the fraction (for instance `"0.i"` for the value `0.5`). -/
def generateAddressCode (latitude longitude : ℚ) (_placeName : JSText)
    (rnd : JSString) : JSString :=
  let cityCode := determineCityCode latitude longitude
  let latGrid : Int := Int.floor ((latitude + 90) * 100)
  let lonGrid : Int := Int.floor ((longitude + 180) * 100)
  let gridCode := sliceLast (intToString latGrid ++ intToString lonGrid) 4
  let randomSuffix := toUpperCase (substring rnd 2 6)
  js "BF-" ++ cityCode ++ js "-" ++ gridCode ++ js "-" ++ randomSuffix

/-- Source: the value of the variable `gridCode` in `generateAddressCode`. -/
def gridCode (latitude longitude : ℚ) : JSString :=
  sliceLast (intToString (Int.floor ((latitude + 90) * 100)) ++
    intToString (Int.floor ((longitude + 180) * 100))) 4

/-- Matches a literal at the head of the input and returns the rest. -/
def matchLiteral : JSString → JSString → Option JSString
  | [], inp => some inp
  | _ :: _, [] => none
  | c :: cs, d :: ds => if c = d then matchLiteral cs ds else none

/-- Matches exactly `n` code units of the class `p` (`[p]{n}`) at the head of
the input and returns the rest. -/
def matchClass (p : Nat → Bool) : Nat → JSString → Option JSString
  | 0, inp => some inp
  | _ + 1, [] => none
  | n + 1, d :: ds => if p d then matchClass p n ds else none

/-- Source: `validateAddressCode(code)`, the anchored pattern
`/^BF-[A-Z]{3}-\d{4}-[A-Z0-9]{4}$/` read left to right. -/
def validateAddressCode (code : JSString) : Bool :=
  ((((((matchLiteral (js "BF-") code).bind (matchClass isUpperAZ 3)).bind
    (matchLiteral (js "-"))).bind (matchClass isDigit09 4)).bind
    (matchLiteral (js "-"))).bind (matchClass isUpperAZ09 4)) == some []

/-- The method `split(sep)` for a separator of one code unit. -/
def jsSplit (sep : Nat) : JSString → List JSString
  | [] => [[]]
  | c :: cs =>
    if c = sep then [] :: jsSplit sep cs
    else
      match jsSplit sep cs with
      | [] => [[c]]
      | p :: ps => (c :: p) :: ps

deriving instance DecidableEq for Except

/-- The object returned by `parseAddressCode`; a field is `none` when the
array element it is read from is `undefined`. -/
structure ParsedCode where
  country : Option JSString
  city : Option JSString
  grid : Option JSString
  unique : Option JSString
deriving DecidableEq, Repr

/-- Source: `parseAddressCode(code)`; the thrown `Error` is the `error` case. -/
def parseAddressCode (code : JSString) : Except String ParsedCode :=
  if !validateAddressCode code then
    Except.error "Invalid address code format"
  else
    let parts := jsSplit 45 code
    Except.ok { country := parts[0]?, city := parts[1]?, grid := parts[2]?, unique := parts[3]? }

/-! ### The city table, as the specification words it -/

/-- One row of the table of known cities: an open bounding box and its token. -/
structure CityBox where
  latMin : ℚ
  latMax : ℚ
  lonMin : ℚ
  lonMax : ℚ
  token : JSString

/-- The point lies strictly inside the box. -/
def CityBox.containsPoint (b : CityBox) (lat lon : ℚ) : Bool :=
  decide (lat > b.latMin ∧ lat < b.latMax ∧ lon > b.lonMin ∧ lon < b.lonMax)

/-- The boxes in table order: Ouagadougou, Bobo-Dioulasso, Koudougou, Banfora,
Ouahigouya, Fada N Gourma. -/
def cityTable : List CityBox :=
  [ { latMin := 12.2, latMax := 12.5, lonMin := -1.7, lonMax := -1.3, token := js "OUA" },
    { latMin := 11.0, latMax := 11.3, lonMin := -4.5, lonMax := -4.0, token := js "BOB" },
    { latMin := 12.1, latMax := 12.4, lonMin := -2.5, lonMax := -2.2, token := js "KOU" },
    { latMin := 10.5, latMax := 10.8, lonMin := -4.9, lonMax := -4.6, token := js "BAN" },
    { latMin := 13.4, latMax := 13.7, lonMin := -2.6, lonMax := -2.2, token := js "OUA" },
    { latMin := 11.9, latMax := 12.2, lonMin := 0.2, lonMax := 0.5, token := js "FAD" } ]

/-- Specification of the city lookup: the token of the first box of the table
that contains the point, the fallback token `OTH` when there is none. -/
def firstMatchingToken (table : List CityBox) (lat lon : ℚ) : JSString :=
  match table.find? (fun b => b.containsPoint lat lon) with
  | some b => b.token
  | none => js "OTH"

/-! ## `duplicateDetection.js`: the similarity scorer -/

/-- A counted loop `for (k = start; k < start + count; k++) st = body(k, st)`. -/
def forLoop {σ : Type} : Nat → Nat → (Nat → σ → σ) → σ → σ
  | _, 0, _, st => st
  | k, n + 1, body, st => forLoop (k + 1) n body (body k st)

/-- The table of `levenshteinDistance`: an array of rows. A cell created by
`fill(null)` holds `0`, the value `null` takes in the additions and in
`Math.min`, the only places where cells are read. -/
abbrev Matrix := List (List Nat)

/-- The expression
`Array(rows).fill(null).map(() => Array(cols).fill(null))`. -/
def newMatrix (rows cols : Nat) : Matrix := List.replicate rows (List.replicate cols 0)

/-- The read `matrix[j][i]`. -/
def getCell (m : Matrix) (j i : Nat) : Nat := (m.getD j []).getD i 0

/-- The assignment `matrix[j][i] = v`. -/
def setCell (m : Matrix) (j i v : Nat) : Matrix := m.set j ((m.getD j []).set i v)

/-- Source: `levenshteinDistance(str1, str2)`, the three loops over the table. -/
def levenshteinDistance (str1 str2 : JSString) : Nat :=
  let matrix := newMatrix (str2.length + 1) (str1.length + 1)
  let matrix := forLoop 0 (str1.length + 1) (fun i m => setCell m 0 i i) matrix
  let matrix := forLoop 0 (str2.length + 1) (fun j m => setCell m j 0 j) matrix
  let matrix := forLoop 1 str2.length (fun j m =>
    forLoop 1 str1.length (fun i m =>
      let cost := if str1[i - 1]? = str2[j - 1]? then 0 else 1
      setCell m j i
        (min (getCell m j (i - 1) + 1)
          (min (getCell m (j - 1) i + 1) (getCell m (j - 1) (i - 1) + cost)))) m) matrix
  getCell matrix str2.length str1.length

/-- The code units removed by `trim`: the white space and line terminators of
ECMAScript. -/
def isTrimmable (c : Nat) : Bool :=
  decide (c ∈ [0x9, 0xA, 0xB, 0xC, 0xD, 0x20, 0xA0, 0x1680, 0x2000, 0x2001, 0x2002, 0x2003,
    0x2004, 0x2005, 0x2006, 0x2007, 0x2008, 0x2009, 0x200A, 0x2028, 0x2029, 0x202F, 0x205F,
    0x3000, 0xFEFF])

/-- The method `trim`. -/
def trim (s : JSString) : JSString :=
  ((s.dropWhile isTrimmable).reverse.dropWhile isTrimmable).reverse

/-- The method `toLowerCase` on ASCII text: `A-Z` move to `a-z`. Used where a
concrete lower-casing is needed; the functions below take the lower-casing as a
parameter. -/
def toLowerCaseASCII (s : JSString) : JSString :=
  s.map (fun c => if 65 ≤ c ∧ c ≤ 90 then c + 32 else c)

/-- Source: `calculateNameSimilarity(name1, name2)`; `toLowerCase` is
`String.prototype.toLowerCase`. The first case is the path after the guard
`!name1 || !name2`, which `null`, `undefined` and the empty string do not pass. -/
def calculateNameSimilarity (toLowerCase : JSString → JSString)
    (name1 name2 : JSText) : ℚ :=
  match name1, name2 with
  | JSText.text n1, JSText.text n2 =>
    if n1 = [] ∨ n2 = [] then 0
    else
      let str1 := trim (toLowerCase n1)
      let str2 := trim (toLowerCase n2)
      if str1 = str2 then 1
      else
        let distance := levenshteinDistance str1 str2
        let maxLength := max str1.length str2.length
        if maxLength = 0 then 1
        else 1 - (distance : ℚ) / (maxLength : ℚ)
  | _, _ => 0

/-- Source: `calculateDistanceScore(distance)`. -/
def calculateDistanceScore (distance : ℚ) : ℚ :=
  if distance ≤ 10 then 1.0
  else if distance ≤ 20 then 0.8
  else if distance ≤ 30 then 0.6
  else if distance ≤ 50 then 0.4
  else 0.2

/-! ## Persisted state -/

/-- A row of the table `addresses`. Timestamps are left out. -/
structure AddressRow where
  id : Nat
  code : JSString
  latitude : ℚ
  longitude : ℚ
  place_name : JSText
  category : JSText
  building_photo_url : Option JSString
  verification_status : JSString
  confidence_score : ℚ
deriving DecidableEq

/-- A row of the table `verification_queue`. Timestamps are left out. -/
structure QueueRow where
  id : Nat
  address_id : Nat
  verification_type : JSString
  status : JSString
  ai_confidence : ℚ
deriving DecidableEq

/-- The persisted state behind `pool`: the two tables and the next values of
their `id` sequences. -/
structure Pool where
  addresses : List AddressRow
  verification_queue : List QueueRow
  nextAddressId : Nat
  nextQueueId : Nat
deriving DecidableEq

/-- What the program consumes from its platform and from the database schema,
neither of which is part of the sources. -/
structure Externals where
  /-- The method `String.prototype.toLowerCase`. -/
  toLowerCase : JSString → JSString
  /-- The value of `ST_Distance(geom, ST_MakePoint(lon, lat))` for a stored row and the
  point `(lon, lat)`. -/
  stDistance : AddressRow → ℚ → ℚ → ℚ
  /-- Column default of `addresses.verification_status`. -/
  defaultVerificationStatus : JSString
  /-- Column default of `addresses.confidence_score`. -/
  defaultConfidenceScore : ℚ
  /-- Column default of `verification_queue.status`. -/
  defaultQueueStatus : JSString

/-! ## `duplicateDetection.js`: the duplicate detector -/

/-- A row returned by `checkForDuplicates`. -/
structure NearbyAddress where
  id : Nat
  code : JSString
  place_name : JSText
  latitude : ℚ
  longitude : ℚ
  category : JSText
  verification_status : JSString
  distance_meters : ℚ
deriving DecidableEq

/-- A row returned by `checkForDuplicatesAdvanced`: the nearby row with its two
added properties. -/
structure ScoredAddress extends NearbyAddress where
  duplicate_probability : ℚ
  is_likely_duplicate : Bool
deriving DecidableEq

/-- Source: `checkForDuplicates(pool, latitude, longitude, radius, excludeId)`:
the rows within `radius` of the point, with their distance, nearest first
(`ORDER BY distance_meters`; rows at the same distance stay in table order, an
order that SQL leaves open). An `excludeId` of `0` is falsy and excludes
nothing. -/
def checkForDuplicates (ext : Externals) (pool : Pool) (latitude longitude radius : ℚ)
    (excludeId : Option Nat) : List NearbyAddress :=
  let within := pool.addresses.filter (fun a =>
    decide (ext.stDistance a longitude latitude ≤ radius) &&
      (match excludeId with
        | none => true
        | some 0 => true
        | some x => decide (a.id ≠ x)))
  let rows := within.map (fun a =>
    { id := a.id, code := a.code, place_name := a.place_name, latitude := a.latitude,
      longitude := a.longitude, category := a.category,
      verification_status := a.verification_status,
      distance_meters := ext.stDistance a longitude latitude : NearbyAddress })
  rows.insertionSort (fun a b => a.distance_meters ≤ b.distance_meters)

/-- Source: the callback of `nearbyAddresses.map` in `checkForDuplicatesAdvanced`;
`category === address.category` is equality of `JSText`. -/
def scoreCandidate (toLowerCase : JSString → JSString) (placeName category : JSText)
    (address : NearbyAddress) : ScoredAddress :=
  let distanceScore := calculateDistanceScore address.distance_meters
  let nameScore := calculateNameSimilarity toLowerCase placeName address.place_name
  let categoryScore : ℚ := if category = address.category then 1 else 0
  let compositeScore := distanceScore * 0.5 + nameScore * 0.3 + categoryScore * 0.2
  { address with
    duplicate_probability := compositeScore
    is_likely_duplicate := decide (compositeScore > 0.7) }

/-- Source: the body of `checkForDuplicatesAdvanced` after the proximity query:
score every nearby row, then `sort` by `b.duplicate_probability -
a.duplicate_probability` (a stable sort, highest first). -/
def rankCandidates (toLowerCase : JSString → JSString) (placeName category : JSText)
    (nearbyAddresses : List NearbyAddress) : List ScoredAddress :=
  let duplicatesWithScore := nearbyAddresses.map (scoreCandidate toLowerCase placeName category)
  duplicatesWithScore.insertionSort
    (fun a b => a.duplicate_probability ≥ b.duplicate_probability)

/-- Source: `checkForDuplicatesAdvanced(pool, latitude, longitude, placeName,
category, radius)`. -/
def checkForDuplicatesAdvanced (ext : Externals) (pool : Pool) (latitude longitude : ℚ)
    (placeName category : JSText) (radius : ℚ) : List ScoredAddress :=
  let nearbyAddresses := checkForDuplicates ext pool latitude longitude radius none
  rankCandidates ext.toLowerCase placeName category nearbyAddresses

/-! ## `routes/addresses.js`: address creation -/

/-- A coordinate field of the request body, as the handler sees it. -/
inductive CoordinateField where
  /-- The field is absent or empty: `!field` holds. -/
  | missing
  /-- The field is present and `parseFloat` gives `NaN`. -/
  | notANumber
  /-- The field is present and `parseFloat` gives this number. -/
  | number (value : ℚ)
deriving DecidableEq

/-- The request of `POST /api/addresses`. -/
structure CreateRequest where
  latitude : CoordinateField
  longitude : CoordinateField
  placeName : JSText
  category : JSText
  /-- The outcome of the photo step for the chosen code: the stored URL, or
  `none` when no file was sent or its processing failed. -/
  photoUrl : JSString → Option JSString

/-- The response of `POST /api/addresses`. -/
inductive CreateResponse where
  /-- Status 400. -/
  | badRequest (error : String)
  /-- Status 409, with the list sent under `duplicates`. -/
  | conflict (error : String) (duplicates : List ScoredAddress)
  /-- Status 500. -/
  | serverError (error : String)
  /-- Status 201, with the inserted row and the two share links. -/
  | created (address : AddressRow) (shareUrl shortUrl : JSString)
deriving DecidableEq

/-- A string operand of `!` or `||`: `null`, `undefined` and `""` are falsy. -/
def isFalsy (x : JSText) : Bool :=
  decide (x = JSText.undefined ∨ x = JSText.null ∨ x = JSText.text [])

/-- The variables of the retry loop: `code`, `isUnique`, `attempts`. -/
structure CodeLoop where
  code : Option JSString
  isUnique : Bool
  attempts : Nat
deriving DecidableEq

/-- Source: the loop `while (!isUnique && attempts < 5)` of the creation route.
`generate k` is the value of the call of `generateAddressCode` made when
`attempts` is `k`. -/
def uniqueCodeLoop (pool : Pool) (generate : Nat → JSString) (v : CodeLoop) : CodeLoop :=
  if !v.isUnique && decide (v.attempts < 5) then
    let code := generate v.attempts
    let existingCode := pool.addresses.filter (fun a => decide (a.code = code))
    uniqueCodeLoop pool generate
      { code := some code, isUnique := decide (existingCode.length = 0), attempts := v.attempts + 1 }
  else v
termination_by 5 - v.attempts
decreasing_by
  simp only [Bool.and_eq_true, decide_eq_true_eq] at *
  omega

/-- The statement `INSERT INTO addresses (...) VALUES (...) RETURNING *`. -/
def insertAddress (ext : Externals) (pool : Pool) (code : JSString) (lat lon : ℚ)
    (placeName category : JSText) (photoUrl : Option JSString) : AddressRow × Pool :=
  let row : AddressRow :=
    { id := pool.nextAddressId, code := code, latitude := lat, longitude := lon,
      place_name := placeName, category := category, building_photo_url := photoUrl,
      verification_status := ext.defaultVerificationStatus,
      confidence_score := ext.defaultConfidenceScore }
  (row, { pool with addresses := pool.addresses ++ [row],
                    nextAddressId := pool.nextAddressId + 1 })

/-- The statement `INSERT INTO verification_queue (address_id, verification_type,
ai_confidence) VALUES ($1, 'photo_match', 0)`. -/
def insertQueueItem (ext : Externals) (pool : Pool) (addressId : Nat) : Pool :=
  let row : QueueRow :=
    { id := pool.nextQueueId, address_id := addressId, verification_type := js "photo_match",
      status := ext.defaultQueueStatus, ai_confidence := 0 }
  { pool with verification_queue := pool.verification_queue ++ [row],
              nextQueueId := pool.nextQueueId + 1 }

/-- Source: the creation route from `// Generate unique address code` to its
end: the retry loop, the photo step, the two inserts and the response. -/
def insertWithUniqueCode (ext : Externals) (pool : Pool) (generate : Nat → JSString)
    (lat lon : ℚ) (placeName category : JSText)
    (photoUrl : JSString → Option JSString) : CreateResponse × Pool :=
  let v := uniqueCodeLoop pool generate { code := none, isUnique := false, attempts := 0 }
  if !v.isUnique then
    (CreateResponse.serverError "Unable to generate unique address code. Please try again.", pool)
  else
    let code := v.code.getD []
    let (address, pool1) := insertAddress ext pool code lat lon placeName category (photoUrl code)
    let shareUrl := js "https://maptag.bf/" ++ code
    let pool2 := insertQueueItem ext pool1 address.id
    (CreateResponse.created address shareUrl
      (js "https://maptag.bf/s/" ++ ((jsSplit 45 code).getLast?).getD []), pool2)

/-- Source: the handler of `POST /api/addresses`. `rnd k` is the text of
`Math.random().toString(36)` in the call of `generateAddressCode` number `k`. QR
rendering and the deletion of temporary files are left out; every query
succeeds. -/
def createAddress (ext : Externals) (rnd : Nat → JSString) (pool : Pool)
    (req : CreateRequest) : CreateResponse × Pool :=
  if req.latitude = CoordinateField.missing ∨ req.longitude = CoordinateField.missing ∨
      isFalsy req.placeName = true then
    (CreateResponse.badRequest "Missing required fields: latitude, longitude, placeName", pool)
  else
    match req.latitude, req.longitude with
    | CoordinateField.number lat, CoordinateField.number lon =>
      if lat < -90 ∨ lat > 90 ∨ lon < -180 ∨ lon > 180 then
        (CreateResponse.badRequest
          "Invalid coordinates: latitude must be between -90 and 90, longitude between -180 and 180",
          pool)
      else if lat < 9.4 ∨ lat > 15.1 ∨ lon < -5.6 ∨ lon > 2.5 then
        (CreateResponse.badRequest "Coordinates are outside Burkina Faso boundaries", pool)
      else
        let category :=
          if isFalsy req.category = true then JSText.text (js "Other") else req.category
        let duplicates :=
          checkForDuplicatesAdvanced ext pool lat lon req.placeName category 50
        let likelyDuplicates := duplicates.filter (fun d => d.is_likely_duplicate)
        if likelyDuplicates.length > 0 then
          (CreateResponse.conflict "Potential duplicate detected" likelyDuplicates, pool)
        else
          insertWithUniqueCode ext pool
            (fun k => generateAddressCode lat lon req.placeName (rnd k))
            lat lon req.placeName category req.photoUrl
    | _, _ =>
      (CreateResponse.badRequest
        "Invalid coordinates: latitude and longitude must be valid numbers", pool)

/-! ### Edit distance, as the specification words it -/

/-- The standard recursive definition of the edit distance: deleting, inserting
or substituting one character costs 1, keeping a character costs 0. -/
def editDistance : JSString → JSString → Nat
  | [], t => t.length
  | a :: s, [] => (a :: s).length
  | a :: s, b :: t =>
    min (editDistance s (b :: t) + 1)
      (min (editDistance (a :: s) t + 1) (editDistance s t + (if a = b then 0 else 1)))
termination_by s t => s.length + t.length

/-- The table that `levenshteinDistance` fills: the cell in row `j` and column
`i` is the edit distance between the first `i` characters of `s` and the first
`j` characters of `t`, both read from their last character backwards. -/
def prefixDistance (s t : JSString) (j i : Nat) : Nat :=
  editDistance (s.take i).reverse (t.take j).reverse

/-- The matrix has `rows` rows of `cols` cells each. -/
def WellSized (m : Matrix) (rows cols : Nat) : Prop :=
  m.length = rows ∧ ∀ j, j < rows → (m.getD j []).length = cols

/-- One single-character edit anywhere in a string: an insertion, a deletion
or a substitution. -/
inductive EditStep : JSString → JSString → Prop
  | insertion (l r : JSString) (c : Nat) : EditStep (l ++ r) (l ++ c :: r)
  | deletion (l r : JSString) (c : Nat) : EditStep (l ++ c :: r) (l ++ r)
  | substitution (l r : JSString) (c d : Nat) : EditStep (l ++ c :: r) (l ++ d :: r)

/-- The string `s` is transformed into `t` by a sequence of `n` single-character
edits. -/
inductive EditsIn : Nat → JSString → JSString → Prop
  | done (s : JSString) : EditsIn 0 s s
  | step {n : Nat} {s t u : JSString} : EditStep s t → EditsIn n t u → EditsIn (n + 1) s u

/-! ## `routes/verification.js`: processing of the verification queue -/

/-- The body of `POST /api/verification/:queueId/process`. The field
`confidence_score` is `none` when it is not sent. -/
structure ProcessRequest where
  action : JSText
  confidence_score : Option ℚ

/-- The response of `POST /api/verification/:queueId/process`. -/
inductive ProcessResponse where
  /-- Status 400. -/
  | badRequest (error : String)
  /-- Status 404. -/
  | notFound (error : String)
  /-- Status 500. -/
  | serverError (error : String)
  /-- Status 200, with `message`, `verification_status` and `confidence_score`. -/
  | ok (message : JSString) (verification_status : JSString) (confidence_score : ℚ)
deriving DecidableEq

/-- The body of `POST /api/verification/batch-process`. The field `queue_ids`
is `none` when it is not an array. -/
structure BatchRequest where
  queue_ids : Option (List Nat)
  action : JSText
  confidence_score : Option ℚ

/-- The response of `POST /api/verification/batch-process`. -/
inductive BatchResponse where
  /-- Status 400. -/
  | badRequest (error : String)
  /-- Status 500. -/
  | serverError (error : String)
  /-- Status 200, with `message`, `processed_count` and `verification_status`. -/
  | ok (message : JSString) (processed_count : Nat) (verification_status : JSString)
deriving DecidableEq

/-- The array `['approve', 'reject', 'flag']` of the two action checks. -/
def validActions : List JSText :=
  [JSText.text (js "approve"), JSText.text (js "reject"), JSText.text (js "flag")]

/-- The expression `confidence_score || d`: a missing score and the score 0 are
falsy. -/
def orDefault (confidence_score : Option ℚ) (d : ℚ) : ℚ :=
  match confidence_score with
  | some q => if q = 0 then d else q
  | none => d

/-- Source: the `switch (action)` of both routes; the pair is
`(verificationStatus, newConfidenceScore)`, and `none` stands for the two
variables left `undefined` when no case matches. -/
def switchAction (action : JSText) (confidence_score : Option ℚ) : Option (JSString × ℚ) :=
  if action = JSText.text (js "approve") then
    some (js "verified", orDefault confidence_score 95)
  else if action = JSText.text (js "reject") then
    some (js "rejected", 0)
  else if action = JSText.text (js "flag") then
    some (js "flagged", orDefault confidence_score 25)
  else none

/-- The statement `UPDATE verification_queue SET status = 'completed',
ai_confidence = $2 WHERE ...`, for the rows selected by `selected`. -/
def completeQueueItems (selected : QueueRow → Bool) (confidence : ℚ)
    (queue : List QueueRow) : List QueueRow :=
  queue.map (fun q =>
    if selected q = true then { q with status := js "completed", ai_confidence := confidence }
    else q)

/-- The statement `UPDATE addresses SET verification_status = $1,
confidence_score = $2 WHERE ...`, for the rows selected by `selected`. -/
def setVerification (selected : AddressRow → Bool) (verificationStatus : JSString)
    (newConfidenceScore : ℚ) (addresses : List AddressRow) : List AddressRow :=
  addresses.map (fun a =>
    if selected a = true then
      { a with verification_status := verificationStatus, confidence_score := newConfidenceScore }
    else a)

/-- The text of an action that passed the check (the empty text otherwise). -/
def actionText (action : JSText) : JSString :=
  match action with
  | JSText.text s => s
  | _ => []

/-- A run without any failing store operation. -/
def noFault : Nat → Bool := fun _ => false

/-- Source: the handler of `POST /api/verification/:queueId/process`.
`fault k` tells whether store operation number `k` of the request throws
(0 `BEGIN`, 1 the `SELECT`, 2 the queue `UPDATE`, 3 the address `UPDATE`,
4 `COMMIT`); the `catch` block then sends `ROLLBACK`. The statements of one
request form one transaction, so that `ROLLBACK` gives back the state at
`BEGIN`. The case `none` of the `switch` is not reached: the action has passed
the check. -/
def processQueueItem (fault : Nat → Bool) (pool : Pool) (queueId : Nat)
    (req : ProcessRequest) : ProcessResponse × Pool :=
  if req.action ∉ validActions then
    (ProcessResponse.badRequest "Invalid action. Must be approve, reject, or flag", pool)
  else if fault 0 = true then (ProcessResponse.serverError "Internal server error", pool)
  else if fault 1 = true then (ProcessResponse.serverError "Internal server error", pool)
  else
    match pool.verification_queue.filter (fun q => decide (q.id = queueId)) with
    | [] => (ProcessResponse.notFound "Verification queue item not found", pool)
    | row :: _ =>
      let addressId := row.address_id
      if fault 2 = true then (ProcessResponse.serverError "Internal server error", pool)
      else
        let queue1 := completeQueueItems (fun q => decide (q.id = queueId))
          (orDefault req.confidence_score 0) pool.verification_queue
        match switchAction req.action req.confidence_score with
        | none => (ProcessResponse.serverError "Internal server error", pool)
        | some (verificationStatus, newConfidenceScore) =>
          if fault 3 = true then (ProcessResponse.serverError "Internal server error", pool)
          else
            let addresses1 := setVerification (fun a => decide (a.id = addressId))
              verificationStatus newConfidenceScore pool.addresses
            if fault 4 = true then (ProcessResponse.serverError "Internal server error", pool)
            else
              (ProcessResponse.ok
                (js "Address verification " ++ actionText req.action ++ js "ed successfully")
                verificationStatus newConfidenceScore,
               { pool with verification_queue := queue1, addresses := addresses1 })

/-- Source: the handler of `POST /api/verification/batch-process`. `fault k`
tells whether store operation number `k` of the request throws (0 `BEGIN`,
1 the queue `UPDATE`, 2 the `SELECT`, 3 the address `UPDATE`, 4 `COMMIT`), as in
`processQueueItem`. -/
def batchProcess (fault : Nat → Bool) (pool : Pool) (req : BatchRequest) :
    BatchResponse × Pool :=
  match req.queue_ids with
  | none => (BatchResponse.badRequest "queue_ids must be a non-empty array", pool)
  | some queue_ids =>
    if queue_ids.length = 0 then
      (BatchResponse.badRequest "queue_ids must be a non-empty array", pool)
    else if req.action ∉ validActions then
      (BatchResponse.badRequest "Invalid action. Must be approve, reject, or flag", pool)
    else if fault 0 = true then (BatchResponse.serverError "Internal server error", pool)
    else
      match switchAction req.action req.confidence_score with
      | none => (BatchResponse.serverError "Internal server error", pool)
      | some (verificationStatus, newConfidenceScore) =>
        if fault 1 = true then (BatchResponse.serverError "Internal server error", pool)
        else
          let queue1 := completeQueueItems (fun q => decide (q.id ∈ queue_ids))
            newConfidenceScore pool.verification_queue
          if fault 2 = true then (BatchResponse.serverError "Internal server error", pool)
          else
            let addressIds :=
              (queue1.filter (fun q => decide (q.id ∈ queue_ids))).map (fun row => row.address_id)
            if fault 3 = true then (BatchResponse.serverError "Internal server error", pool)
            else
              let addresses1 := setVerification (fun a => decide (a.id ∈ addressIds))
                verificationStatus newConfidenceScore pool.addresses
              if fault 4 = true then (BatchResponse.serverError "Internal server error", pool)
              else
                (BatchResponse.ok
                  (natToString queue_ids.length ++ js " addresses " ++ actionText req.action ++
                    js "ed successfully")
                  queue_ids.length verificationStatus,
                 { pool with verification_queue := queue1, addresses := addresses1 })

/-! ### The two routes, statement by statement -/

/-- The database as the connection of a request sees it: `current` holds the
rows that the connection reads and writes; while a transaction is open, `begun`
holds the rows as they were when the transaction began. -/
structure Session where
  current : Pool
  begun : Option Pool
deriving DecidableEq

/-- The persisted rows: what a later request reads. Inside a transaction these
are the rows of `BEGIN`, outside they are the current rows. -/
def Session.persisted (s : Session) : Pool := s.begun.getD s.current

/-- A connection with no open transaction. -/
def Session.idle (pool : Pool) : Session := { current := pool, begun := none }

/-- The statement `BEGIN` (without effect inside a transaction). -/
def Session.beginTransaction (s : Session) : Session :=
  match s.begun with
  | none => { current := s.current, begun := some s.current }
  | some _ => s

/-- The statement `COMMIT`. -/
def Session.commit (s : Session) : Session := { current := s.current, begun := none }

/-- The statement `ROLLBACK`. -/
def Session.rollback (s : Session) : Session := { current := s.persisted, begun := none }

/-- An `UPDATE` statement, given as its effect on the rows. -/
def Session.update (effect : Pool → Pool) (s : Session) : Session :=
  { current := effect s.current, begun := s.begun }

/-- The call `await pool.query(...)` that is store operation number `k` of the
request: it throws, without any effect, when `fault k` holds (`none`), and runs
the statement otherwise. -/
def runQuery (fault : Nat → Bool) (k : Nat) (statement : Session → Session) (s : Session) :
    Option Session :=
  if fault k = true then none else some (statement s)

/-- Source: the handler of `POST /api/verification/:queueId/process`, one
`pool.query` at a time, with the `catch` block that sends `ROLLBACK`. The
statements of the request run on one connection. -/
def processQueueItemStatements (fault : Nat → Bool) (s : Session) (queueId : Nat)
    (req : ProcessRequest) : ProcessResponse × Session :=
  if req.action ∉ validActions then
    (ProcessResponse.badRequest "Invalid action. Must be approve, reject, or flag", s)
  else
    match runQuery fault 0 Session.beginTransaction s with
    | none => (ProcessResponse.serverError "Internal server error", s.rollback)
    | some s1 =>
      match runQuery fault 1 (fun x => x) s1 with
      | none => (ProcessResponse.serverError "Internal server error", s1.rollback)
      | some s2 =>
        match s2.current.verification_queue.filter (fun q => decide (q.id = queueId)) with
        | [] => (ProcessResponse.notFound "Verification queue item not found", s2.rollback)
        | row :: _ =>
          let addressId := row.address_id
          let updateQueue : Pool → Pool := fun p =>
            { p with
              verification_queue := completeQueueItems (fun q => decide (q.id = queueId))
                (orDefault req.confidence_score 0) p.verification_queue }
          match runQuery fault 2 (Session.update updateQueue) s2 with
          | none => (ProcessResponse.serverError "Internal server error", s2.rollback)
          | some s3 =>
            match switchAction req.action req.confidence_score with
            | none => (ProcessResponse.serverError "Internal server error", s3.rollback)
            | some (verificationStatus, newConfidenceScore) =>
              let updateAddresses : Pool → Pool := fun p =>
                { p with
                  addresses := setVerification (fun a => decide (a.id = addressId))
                    verificationStatus newConfidenceScore p.addresses }
              match runQuery fault 3 (Session.update updateAddresses) s3 with
              | none => (ProcessResponse.serverError "Internal server error", s3.rollback)
              | some s4 =>
                match runQuery fault 4 Session.commit s4 with
                | none => (ProcessResponse.serverError "Internal server error", s4.rollback)
                | some s5 =>
                  (ProcessResponse.ok
                    (js "Address verification " ++ actionText req.action ++
                      js "ed successfully")
                    verificationStatus newConfidenceScore, s5)

/-- Source: the handler of `POST /api/verification/batch-process`, one
`pool.query` at a time, with the `catch` block that sends `ROLLBACK`. -/
def batchProcessStatements (fault : Nat → Bool) (s : Session) (req : BatchRequest) :
    BatchResponse × Session :=
  match req.queue_ids with
  | none => (BatchResponse.badRequest "queue_ids must be a non-empty array", s)
  | some queue_ids =>
    if queue_ids.length = 0 then
      (BatchResponse.badRequest "queue_ids must be a non-empty array", s)
    else if req.action ∉ validActions then
      (BatchResponse.badRequest "Invalid action. Must be approve, reject, or flag", s)
    else
      match runQuery fault 0 Session.beginTransaction s with
      | none => (BatchResponse.serverError "Internal server error", s.rollback)
      | some s1 =>
        match switchAction req.action req.confidence_score with
        | none => (BatchResponse.serverError "Internal server error", s1.rollback)
        | some (verificationStatus, newConfidenceScore) =>
          let updateQueue : Pool → Pool := fun p =>
            { p with
              verification_queue := completeQueueItems (fun q => decide (q.id ∈ queue_ids))
                newConfidenceScore p.verification_queue }
          match runQuery fault 1 (Session.update updateQueue) s1 with
          | none => (BatchResponse.serverError "Internal server error", s1.rollback)
          | some s2 =>
            match runQuery fault 2 (fun x => x) s2 with
            | none => (BatchResponse.serverError "Internal server error", s2.rollback)
            | some s3 =>
              let addressIds :=
                (s3.current.verification_queue.filter
                  (fun q => decide (q.id ∈ queue_ids))).map (fun row => row.address_id)
              let updateAddresses : Pool → Pool := fun p =>
                { p with
                  addresses := setVerification (fun a => decide (a.id ∈ addressIds))
                    verificationStatus newConfidenceScore p.addresses }
              match runQuery fault 3 (Session.update updateAddresses) s3 with
              | none => (BatchResponse.serverError "Internal server error", s3.rollback)
              | some s4 =>
                match runQuery fault 4 Session.commit s4 with
                | none => (BatchResponse.serverError "Internal server error", s4.rollback)
                | some s5 =>
                  (BatchResponse.ok
                    (natToString queue_ids.length ++ js " addresses " ++
                      actionText req.action ++ js "ed successfully")
                    queue_ids.length verificationStatus, s5)

/-! ### The action table and sequential processing, as the specification words them -/

/-- The table of outcomes: action, address status, confidence when none is
supplied. -/
def actionOutcomes : List (JSString × JSString × ℚ) :=
  [(js "approve", js "verified", 95), (js "reject", js "rejected", 0),
   (js "flag", js "flagged", 25)]

/-- Processing the listed queue items one after another with the single-item
operation, each request starting from the state left by the one before. -/
def processSequentially (pool : Pool) (queueIds : List Nat) (req : ProcessRequest) : Pool :=
  queueIds.foldl (fun p queueId => (processQueueItem noFault p queueId req).2) pool

/-- The address id that the single-item route reads for a queue item id: the
`address_id` of the first stored row with that id. -/
def ownerOf (queue : List QueueRow) (queueId : Nat) : Option Nat :=
  (queue.find? (fun q => decide (q.id = queueId))).map (fun q => q.address_id)

/-! ### Sample data -/

/-- A stand-in for the PostGIS distance: 111 km per degree along each axis. -/
def sampleExternals : Externals :=
  { toLowerCase := toLowerCaseASCII
    stDistance := fun a lon lat => 111000 * (|a.latitude - lat| + |a.longitude - lon|)
    defaultVerificationStatus := js "pending"
    defaultConfidenceScore := 0
    defaultQueueStatus := js "pending" }

/-- A stored, pending address without photo. -/
def sampleAddress (id : Nat) (code : JSString) (lat lon : ℚ) (name category : JSString) :
    AddressRow :=
  { id := id, code := code, latitude := lat, longitude := lon, place_name := JSText.text name,
    category := JSText.text category, building_photo_url := none,
    verification_status := js "pending", confidence_score := 0 }

/-- A pending queue item. -/
def sampleQueueItem (id addressId : Nat) : QueueRow :=
  { id := id, address_id := addressId, verification_type := js "photo_match",
    status := js "pending", ai_confidence := 0 }

/-- Two stored addresses 0.0003 degrees apart (about 33 m), the first one
queued for verification. -/
def samplePool : Pool :=
  { addresses :=
      [sampleAddress 1 (js "BF-OTH-7860-AB12") 12.30 (-1.40) (js "Shop A") (js "Commerce"),
       sampleAddress 2 (js "BF-OTH-7860-CD34") 12.3003 (-1.40) (js "Garage") (js "Service")]
    verification_queue := [sampleQueueItem 1 1, sampleQueueItem 2 2]
    nextAddressId := 3
    nextQueueId := 3 }

/-- Five stored addresses, each with its pending queue item. -/
def samplePoolFive : Pool :=
  { addresses :=
      [sampleAddress 1 (js "BF-OTH-7860-AB12") 12.30 (-1.40) (js "Shop A") (js "Commerce"),
       sampleAddress 2 (js "BF-OTH-7860-CD34") 12.31 (-1.40) (js "Garage") (js "Service"),
       sampleAddress 3 (js "BF-OTH-7860-EF56") 12.32 (-1.40) (js "School") (js "Education"),
       sampleAddress 4 (js "BF-OTH-7860-GH78") 12.33 (-1.40) (js "Clinic") (js "Health"),
       sampleAddress 5 (js "BF-OTH-7860-IJ90") 12.34 (-1.40) (js "Bakery") (js "Commerce")]
    verification_queue :=
      [sampleQueueItem 11 1, sampleQueueItem 12 2, sampleQueueItem 13 3, sampleQueueItem 14 4,
       sampleQueueItem 15 5]
    nextAddressId := 6
    nextQueueId := 16 }

/-- A submission identical to the first stored address. -/
def sampleRequest : CreateRequest :=
  { latitude := CoordinateField.number 12.30
    longitude := CoordinateField.number (-1.40)
    placeName := JSText.text (js "Shop A")
    category := JSText.text (js "Commerce")
    photoUrl := fun _ => none }

end MapTag

/-! # Theorems -/

namespace MapTag

/-! ## Address codes -/

theorem matchLiteral_eq_some (l inp r : JSString) :
    matchLiteral l inp = some r ↔ inp = l ++ r := by
  induction l generalizing inp with
  | nil => simp [matchLiteral, eq_comm]
  | cons c cs ih =>
    cases inp with
    | nil => simp [matchLiteral]
    | cons d ds =>
      by_cases h : c = d
      · subst h; simp [matchLiteral, ih]
      · simp [matchLiteral, h, Ne.symm h]

theorem matchClass_eq_some (p : Nat → Bool) (n : Nat) (inp r : JSString) :
    matchClass p n inp = some r ↔
      ∃ a : JSString, a.length = n ∧ a.all p = true ∧ inp = a ++ r := by
  induction n generalizing inp with
  | zero =>
    simp only [matchClass, Option.some.injEq, List.length_eq_zero]
    constructor
    · intro h; exact ⟨[], rfl, rfl, by simp [h]⟩
    · rintro ⟨a, rfl, -, h⟩; simp [h]
  | succ n ih =>
    cases inp with
    | nil =>
      simp only [matchClass]
      constructor
      · intro h; cases h
      · rintro ⟨a, ha, -, h⟩
        cases a with
        | nil => simp at ha
        | cons x xs => simp at h
    | cons d ds =>
      by_cases hp : p d = true
      · simp only [matchClass, hp, if_true, ih]
        constructor
        · rintro ⟨a, ha, hall, rfl⟩
          exact ⟨d :: a, by simp [ha], by simp [hp, hall], rfl⟩
        · rintro ⟨a, ha, hall, h⟩
          cases a with
          | nil => simp at ha
          | cons x xs =>
            simp only [List.cons_append, List.cons.injEq] at h
            obtain ⟨rfl, rfl⟩ := h
            simp only [List.all_cons, Bool.and_eq_true] at hall
            exact ⟨xs, by simpa using ha, hall.2, rfl⟩
      · simp only [matchClass, hp, Bool.false_eq_true, if_false]
        constructor
        · intro h; cases h
        · rintro ⟨a, ha, hall, h⟩
          cases a with
          | nil => simp at ha
          | cons x xs =>
            simp only [List.cons_append, List.cons.injEq] at h
            obtain ⟨rfl, rfl⟩ := h
            simp only [List.all_cons, Bool.and_eq_true] at hall
            exact absurd hall.1 hp

/-- The codes accepted by `validateAddressCode` are exactly the texts
`BF-` city `-` grid `-` unique with the three classes and lengths of the pattern. -/
theorem validateAddressCode_iff (code : JSString) :
    validateAddressCode code = true ↔
      ∃ city grid unique : JSString,
        (city.length = 3 ∧ city.all isUpperAZ = true) ∧
        (grid.length = 4 ∧ grid.all isDigit09 = true) ∧
        (unique.length = 4 ∧ unique.all isUpperAZ09 = true) ∧
        code = js "BF-" ++ (city ++ (js "-" ++ (grid ++ (js "-" ++ unique)))) := by
  unfold validateAddressCode
  rw [beq_iff_eq]
  simp only [Option.bind_eq_some, matchLiteral_eq_some, matchClass_eq_some]
  constructor
  · rintro ⟨r5, ⟨r4, ⟨r3, ⟨r2, ⟨r1, h1, city, hc1, hc2, h2⟩, h3⟩, grid, hg1, hg2, h4⟩, h5⟩,
      unique, hu1, hu2, h6⟩
    refine ⟨city, grid, unique, ⟨hc1, hc2⟩, ⟨hg1, hg2⟩, ⟨hu1, hu2⟩, ?_⟩
    subst h6 h5 h4 h3 h2 h1
    simp
  · rintro ⟨city, grid, unique, ⟨hc1, hc2⟩, ⟨hg1, hg2⟩, ⟨hu1, hu2⟩, rfl⟩
    exact ⟨unique, ⟨js "-" ++ unique, ⟨grid ++ (js "-" ++ unique),
      ⟨js "-" ++ (grid ++ (js "-" ++ unique)),
        ⟨city ++ (js "-" ++ (grid ++ (js "-" ++ unique))), rfl, city, hc1, hc2, rfl⟩, rfl⟩,
      grid, hg1, hg2, rfl⟩, rfl⟩, unique, hu1, hu2, by simp⟩

theorem jsSplit_ne_nil (sep : Nat) (s : JSString) : jsSplit sep s ≠ [] := by
  cases s with
  | nil => simp [jsSplit]
  | cons c cs =>
    by_cases h : c = sep
    · simp [jsSplit, h]
    · simp only [jsSplit, h, if_false]
      split <;> simp

theorem jsSplit_of_not_mem (sep : Nat) (a : JSString) (h : sep ∉ a) :
    jsSplit sep a = [a] := by
  induction a with
  | nil => rfl
  | cons c cs ih =>
    simp only [List.mem_cons, not_or] at h
    simp [jsSplit, Ne.symm h.1, ih h.2]

theorem jsSplit_append_sep (sep : Nat) (a rest : JSString) (h : sep ∉ a) :
    jsSplit sep (a ++ sep :: rest) = a :: jsSplit sep rest := by
  induction a with
  | nil => simp [jsSplit]
  | cons c cs ih =>
    simp only [List.mem_cons, not_or] at h
    simp [jsSplit, Ne.symm h.1, ih h.2]

theorem hyphen_not_mem_of_all (p : Nat → Bool) (hp : p 45 = false) (a : JSString)
    (h : a.all p = true) : 45 ∉ a := by
  intro hmem
  have := List.all_eq_true.mp h 45 hmem
  rw [hp] at this
  cases this

theorem firstMatchingToken_nil (lat lon : ℚ) : firstMatchingToken [] lat lon = js "OTH" := rfl

theorem firstMatchingToken_cons (b : CityBox) (bs : List CityBox) (lat lon : ℚ) :
    firstMatchingToken (b :: bs) lat lon =
      if b.containsPoint lat lon = true then b.token else firstMatchingToken bs lat lon := by
  unfold firstMatchingToken
  cases h : b.containsPoint lat lon <;> simp [List.find?, h]

theorem length_of_validateAddressCode (code : JSString)
    (h : validateAddressCode code = true) : code.length = 16 := by
  obtain ⟨city, grid, unique, hc, hg, hu, rfl⟩ := (validateAddressCode_iff code).mp h
  simp [js, hc.1, hg.1, hu.1]

theorem determineCityCode_length (lat lon : ℚ) : (determineCityCode lat lon).length = 3 := by
  unfold determineCityCode
  split_ifs <;> rfl

/-- Whenever the text of the random number has fewer than four digits after
`0.`, the generated code is shorter than 16 characters and is rejected, at every
point and for every place name. -/
theorem generateAddressCode_rejected_of_short_random (lat lon : ℚ) (placeName : JSText)
    (rnd : JSString) (h : rnd.length < 6) :
    validateAddressCode (generateAddressCode lat lon placeName rnd) = false := by
  cases hv : validateAddressCode (generateAddressCode lat lon placeName rnd) with
  | false => rfl
  | true =>
    have hlen := length_of_validateAddressCode _ hv
    simp only [generateAddressCode, List.length_append, determineCityCode_length, sliceLast,
      toUpperCase, substring, List.length_map, List.length_take, List.length_drop, js] at hlen
    simp only [String.toList, List.map, List.length] at hlen
    omega

/-- C1 (evaluation at the failing input): when `Math.random()` returns `0.5`,
whose base-36 text is `0.i`, the code generated for the point
(12.3714, -1.5197) is `BF-OUA-7848-I`, with a one-character suffix, and
`validateAddressCode` rejects it. -/
theorem generateAddressCode_short_suffix_rejected :
    generateAddressCode 12.3714 (-1.5197) (JSText.text (js "Kiosk")) (js "0.i") = js "BF-OUA-7848-I" ∧
    validateAddressCode
      (generateAddressCode 12.3714 (-1.5197) (JSText.text (js "Kiosk")) (js "0.i")) = false := by
  decide!

/-- C2: `determineCityCode` returns the token of the first box of the city
table, in table order, that contains the point, and `OTH` when no box does;
(12.3714, -1.5197) gives `OUA` and (0, 0) gives `OTH`. -/
theorem determineCityCode_first_match :
    (∀ lat lon : ℚ, determineCityCode lat lon = firstMatchingToken cityTable lat lon) ∧
    determineCityCode 12.3714 (-1.5197) = js "OUA" ∧
    determineCityCode 0 0 = js "OTH" := by
  refine ⟨?_, by decide!, by decide!⟩
  intro lat lon
  simp only [determineCityCode, cityTable, firstMatchingToken_cons, firstMatchingToken_nil,
    CityBox.containsPoint, decide_eq_true_eq]

/-- C3: `parseAddressCode` throws exactly on the codes that
`validateAddressCode` rejects; on an accepted code it returns the components
country `BF`, a city of 3 upper-case letters, a grid of 4 digits and a unique
part of 4 upper-case alphanumerics, and joining them with `-` gives the code
back. -/
theorem parseAddressCode_lossless (code : JSString) :
    (validateAddressCode code = false ∧
      parseAddressCode code = Except.error "Invalid address code format") ∨
    (validateAddressCode code = true ∧
      ∃ city grid unique : JSString,
        parseAddressCode code =
          Except.ok { country := some (js "BF"), city := some city, grid := some grid,
                      unique := some unique } ∧
        (city.length = 3 ∧ city.all isUpperAZ = true) ∧
        (grid.length = 4 ∧ grid.all isDigit09 = true) ∧
        (unique.length = 4 ∧ unique.all isUpperAZ09 = true) ∧
        js "BF" ++ js "-" ++ city ++ js "-" ++ grid ++ js "-" ++ unique = code) := by
  cases hv : validateAddressCode code with
  | false => left; simp [parseAddressCode, hv]
  | true =>
    right
    obtain ⟨city, grid, unique, hc, hg, hu, rfl⟩ := (validateAddressCode_iff code).mp hv
    refine ⟨rfl, city, grid, unique, ?_, hc, hg, hu, by simp [js]⟩
    have h1 : (45 : Nat) ∉ js "BF" := by decide
    have h2 : (45 : Nat) ∉ city := hyphen_not_mem_of_all _ (by decide) _ hc.2
    have h3 : (45 : Nat) ∉ grid := hyphen_not_mem_of_all _ (by decide) _ hg.2
    have h4 : (45 : Nat) ∉ unique := hyphen_not_mem_of_all _ (by decide) _ hu.2
    have hsplit : jsSplit 45 (js "BF-" ++ (city ++ (js "-" ++ (grid ++ (js "-" ++ unique)))))
        = [js "BF", city, grid, unique] := by
      have e : js "BF-" ++ (city ++ (js "-" ++ (grid ++ (js "-" ++ unique))))
          = js "BF" ++ 45 :: (city ++ 45 :: (grid ++ 45 :: unique)) := by simp [js]
      rw [e, jsSplit_append_sep _ _ _ h1, jsSplit_append_sep _ _ _ h2,
        jsSplit_append_sep _ _ _ h3, jsSplit_of_not_mem _ _ h4]
    simp [parseAddressCode, hv, hsplit]

/-! ## Edit distance -/

theorem editDistance_nil_left (t : JSString) : editDistance [] t = t.length := by
  rw [editDistance]

theorem editDistance_nil_right (s : JSString) : editDistance s [] = s.length := by
  cases s with
  | nil => rw [editDistance]
  | cons a s => rw [editDistance]

theorem editDistance_cons_cons (a b : Nat) (s t : JSString) :
    editDistance (a :: s) (b :: t) =
      min (editDistance s (b :: t) + 1)
        (min (editDistance (a :: s) t + 1) (editDistance s t + (if a = b then 0 else 1))) := by
  rw [editDistance]

theorem editDistance_comm (s t : JSString) : editDistance s t = editDistance t s := by
  induction s generalizing t with
  | nil => rw [editDistance_nil_left, editDistance_nil_right]
  | cons a s ihs =>
    induction t with
    | nil => rw [editDistance_nil_left, editDistance_nil_right]
    | cons b t iht =>
      rw [editDistance_cons_cons, editDistance_cons_cons, ihs (b :: t), iht, ihs t]
      have hc : (if a = b then 0 else 1) = (if b = a then 0 else 1) := by
        by_cases h : a = b
        · subst h; rfl
        · rw [if_neg h, if_neg (Ne.symm h)]
      rw [hc]
      omega

theorem editDistance_le_max (s t : JSString) :
    editDistance s t ≤ max s.length t.length := by
  induction s generalizing t with
  | nil => rw [editDistance_nil_left]; exact le_max_right _ _
  | cons a s ihs =>
    cases t with
    | nil => rw [editDistance_nil_right]; exact le_max_left _ _
    | cons b t =>
      rw [editDistance_cons_cons]
      have h := ihs t
      have hc : (if a = b then 0 else 1) ≤ 1 := by split <;> omega
      simp only [List.length_cons]
      omega

theorem editDistance_cons_le (c : Nat) (r u : JSString) :
    editDistance (c :: r) u ≤ editDistance r u + 1 := by
  cases u with
  | nil => simp [editDistance_nil_right]
  | cons y u => rw [editDistance_cons_cons]; omega

theorem editDistance_le_cons_right (c : Nat) (r u : JSString) :
    editDistance r (c :: u) ≤ editDistance r u + 1 := by
  rw [editDistance_comm r (c :: u), editDistance_comm r u]
  exact editDistance_cons_le c u r

theorem editDistance_le_cons (c : Nat) (r u : JSString) :
    editDistance r u ≤ editDistance (c :: r) u + 1 := by
  induction u with
  | nil => simp only [editDistance_nil_right, List.length_cons]; omega
  | cons y u ih =>
    rw [editDistance_cons_cons]
    have h1 := editDistance_le_cons_right y r u
    have hc : (if c = y then 0 else 1) ≤ 1 := by split <;> omega
    omega

theorem editDistance_subst_le (c d : Nat) (r u : JSString) :
    editDistance (c :: r) u ≤ editDistance (d :: r) u + 1 := by
  induction u with
  | nil => simp [editDistance_nil_right]
  | cons y u ih =>
    rw [editDistance_cons_cons, editDistance_cons_cons]
    have hc : (if c = y then 0 else 1) ≤ 1 := by split <;> omega
    omega

/-- Putting the same character in front of two strings keeps a bound on the
difference of their distances to every third string. -/
theorem editDistance_cons_congr (x : Nat) (a b : JSString)
    (h : ∀ u, editDistance a u ≤ editDistance b u + 1) :
    ∀ u, editDistance (x :: a) u ≤ editDistance (x :: b) u + 1 := by
  intro u
  induction u with
  | nil =>
    have h0 := h []
    simp only [editDistance_nil_right] at h0
    simp only [editDistance_nil_right, List.length_cons]
    omega
  | cons y u ih =>
    rw [editDistance_cons_cons, editDistance_cons_cons]
    have h1 := h (y :: u)
    have h2 := h u
    omega

/-- One edit of the first string changes the distance to any third string by
at most one. -/
theorem editDistance_step_le {s t : JSString} (h : EditStep s t) :
    ∀ u, editDistance s u ≤ editDistance t u + 1 := by
  cases h with
  | insertion l r c =>
    induction l with
    | nil => intro u; exact editDistance_le_cons c r u
    | cons x l ih => exact editDistance_cons_congr x _ _ ih
  | deletion l r c =>
    induction l with
    | nil => intro u; exact editDistance_cons_le c r u
    | cons x l ih => exact editDistance_cons_congr x _ _ ih
  | substitution l r c d =>
    induction l with
    | nil => intro u; exact editDistance_subst_le c d r u
    | cons x l ih => exact editDistance_cons_congr x _ _ ih

/-- No sequence of edits is shorter than the edit distance. -/
theorem editDistance_le_of_editsIn {n : Nat} {s t : JSString} (h : EditsIn n s t) :
    editDistance s t ≤ n := by
  induction h with
  | done s =>
    have : ∀ s : JSString, editDistance s s = 0 := by
      intro s
      induction s with
      | nil => rw [editDistance_nil_left]; rfl
      | cons a s ih =>
        rw [editDistance_cons_cons, ih]
        simp
    rw [this]
  | @step n s t u hst _ ih =>
    have := editDistance_step_le hst u
    omega

theorem editStep_cons (c : Nat) {s t : JSString} (h : EditStep s t) :
    EditStep (c :: s) (c :: t) := by
  cases h with
  | insertion l r x => exact EditStep.insertion (c :: l) r x
  | deletion l r x => exact EditStep.deletion (c :: l) r x
  | substitution l r x y => exact EditStep.substitution (c :: l) r x y

theorem editsIn_cons (c : Nat) {n : Nat} {s t : JSString} (h : EditsIn n s t) :
    EditsIn n (c :: s) (c :: t) := by
  induction h with
  | done s => exact EditsIn.done _
  | step hst _ ih => exact EditsIn.step (editStep_cons c hst) ih

theorem editsIn_insert_all (t : JSString) : EditsIn t.length [] t := by
  induction t with
  | nil => exact EditsIn.done _
  | cons b t ih => exact EditsIn.step (EditStep.insertion [] [] b) (editsIn_cons b ih)

theorem editsIn_delete_all (s : JSString) : EditsIn s.length s [] := by
  induction s with
  | nil => exact EditsIn.done _
  | cons a s ih => exact EditsIn.step (EditStep.deletion [] s a) ih

/-- Some sequence of edits has exactly the length of the edit distance. -/
theorem editsIn_editDistance (s t : JSString) : EditsIn (editDistance s t) s t := by
  induction s generalizing t with
  | nil => rw [editDistance_nil_left]; exact editsIn_insert_all t
  | cons a s ihs =>
    induction t with
    | nil => rw [editDistance_nil_right]; exact editsIn_delete_all _
    | cons b t iht =>
      rw [editDistance_cons_cons]
      have h1 : EditsIn (editDistance s (b :: t) + 1) (a :: s) (b :: t) :=
        EditsIn.step (EditStep.deletion [] s a) (ihs (b :: t))
      have h2 : EditsIn (editDistance (a :: s) t + 1) (a :: s) (b :: t) :=
        EditsIn.step (EditStep.insertion [] (a :: s) b) (editsIn_cons b iht)
      have h3 : EditsIn (editDistance s t + (if a = b then 0 else 1)) (a :: s) (b :: t) := by
        by_cases hab : a = b
        · subst hab
          simpa using editsIn_cons a (ihs t)
        · rw [if_neg hab]
          exact EditsIn.step (EditStep.substitution [] s a b) (editsIn_cons b (ihs t))
      rcases min_choice (editDistance s (b :: t) + 1)
        (min (editDistance (a :: s) t + 1) (editDistance s t + (if a = b then 0 else 1)))
        with h | h
      · rw [h]; exact h1
      · rw [h]
        rcases min_choice (editDistance (a :: s) t + 1)
          (editDistance s t + (if a = b then 0 else 1)) with h | h
        · rw [h]; exact h2
        · rw [h]; exact h3

theorem editStep_reverse {s t : JSString} (h : EditStep s t) :
    EditStep s.reverse t.reverse := by
  cases h with
  | insertion l r c =>
    have := EditStep.insertion r.reverse l.reverse c
    simpa using this
  | deletion l r c =>
    have := EditStep.deletion r.reverse l.reverse c
    simpa using this
  | substitution l r c d =>
    have := EditStep.substitution r.reverse l.reverse c d
    simpa using this

theorem editsIn_reverse {n : Nat} {s t : JSString} (h : EditsIn n s t) :
    EditsIn n s.reverse t.reverse := by
  induction h with
  | done s => exact EditsIn.done _
  | step hst _ ih => exact EditsIn.step (editStep_reverse hst) ih

theorem editDistance_reverse (s t : JSString) :
    editDistance s.reverse t.reverse = editDistance s t := by
  apply le_antisymm
  · exact editDistance_le_of_editsIn (editsIn_reverse (editsIn_editDistance s t))
  · have := editDistance_le_of_editsIn (editsIn_reverse (editsIn_editDistance s.reverse t.reverse))
    simpa using this

/-! ## The table of `levenshteinDistance` -/

theorem forLoop_invariant {σ : Type} (Inv : Nat → σ → Prop) (body : Nat → σ → σ) :
    ∀ (n k : Nat) (st : σ), Inv k st →
      (∀ k2 st2, k ≤ k2 → k2 < k + n → Inv k2 st2 → Inv (k2 + 1) (body k2 st2)) →
      Inv (k + n) (forLoop k n body st) := by
  intro n
  induction n with
  | zero => intro k st h _; simpa [forLoop] using h
  | succ n ih =>
    intro k st h hstep
    have h1 : Inv (k + 1) (body k st) := hstep k st (le_refl _) (by omega) h
    have := ih (k + 1) (body k st) h1
      (fun k2 st2 hk hk2 hinv => hstep k2 st2 (by omega) (by omega) hinv)
    have e : k + 1 + n = k + (n + 1) := by omega
    rw [e] at this
    simpa [forLoop] using this

theorem getD_set_eq {α : Type} (l : List α) (n k : Nat) (a d : α) :
    (l.set n a).getD k d = if k = n ∧ n < l.length then a else l.getD k d := by
  induction l generalizing n k with
  | nil => simp
  | cons x xs ih =>
    cases n with
    | zero =>
      cases k with
      | zero => simp
      | succ k => simp
    | succ n =>
      cases k with
      | zero => simp
      | succ k => simpa using ih n k

theorem getD_setCell (m : Matrix) (j i v j2 : Nat) :
    (setCell m j i v).getD j2 [] = if j2 = j then (m.getD j []).set i v else m.getD j2 [] := by
  unfold setCell
  rw [getD_set_eq]
  by_cases h : j2 = j
  · subst h
    by_cases hl : j2 < m.length
    · simp [hl]
    · have : m.getD j2 [] = [] := by
        simp [List.getD_eq_getElem?_getD, List.getElem?_eq_none (not_lt.mp hl)]
      rw [if_neg (fun hh => hl hh.2), if_pos rfl, this]
      rfl
  · simp [h]

theorem wellSized_setCell {m : Matrix} {rows cols : Nat} (h : WellSized m rows cols)
    (j i v : Nat) : WellSized (setCell m j i v) rows cols := by
  refine ⟨by simpa [setCell] using h.1, ?_⟩
  intro j2 hj2
  rw [getD_setCell]
  by_cases e : j2 = j
  · subst e; simpa using h.2 j2 hj2
  · simpa [e] using h.2 j2 hj2

theorem getCell_setCell {m : Matrix} {rows cols : Nat} (h : WellSized m rows cols)
    (j i v j2 i2 : Nat) (hj : j < rows) (hi : i < cols) :
    getCell (setCell m j i v) j2 i2 = if j2 = j ∧ i2 = i then v else getCell m j2 i2 := by
  unfold getCell
  rw [getD_setCell]
  by_cases e : j2 = j
  · subst e
    rw [if_pos rfl, getD_set_eq, h.2 j2 hj]
    simp [hi]
  · simp [e]

theorem wellSized_newMatrix (rows cols : Nat) : WellSized (newMatrix rows cols) rows cols := by
  refine ⟨by simp [newMatrix], ?_⟩
  intro j hj
  simp [newMatrix, List.getD_eq_getElem?_getD, List.getElem?_replicate, hj]

theorem prefixDistance_zero_row (s t : JSString) (i : Nat) (hi : i ≤ s.length) :
    prefixDistance s t 0 i = i := by
  simp [prefixDistance, editDistance_nil_right, hi]

theorem prefixDistance_zero_col (s t : JSString) (j : Nat) (hj : j ≤ t.length) :
    prefixDistance s t j 0 = j := by
  simp [prefixDistance, editDistance_nil_left, hj]

theorem reverse_take_succ (l : JSString) (n : Nat) (h : n < l.length) :
    (l.take (n + 1)).reverse = l[n] :: (l.take n).reverse := by
  rw [List.take_succ, List.getElem?_eq_getElem h]
  simp

theorem prefixDistance_succ (s t : JSString) (j i : Nat) (hi : i < s.length)
    (hj : j < t.length) :
    prefixDistance s t (j + 1) (i + 1) =
      min (prefixDistance s t (j + 1) i + 1)
        (min (prefixDistance s t j (i + 1) + 1)
          (prefixDistance s t j i + (if s[i]? = t[j]? then 0 else 1))) := by
  unfold prefixDistance
  rw [reverse_take_succ s i hi, reverse_take_succ t j hj, editDistance_cons_cons,
    List.getElem?_eq_getElem hi, List.getElem?_eq_getElem hj]
  simp only [Option.some.injEq]

/-- After the first loop, row 0 holds `0, 1, ..., str1.length`. -/
theorem firstRow_filled (s t : JSString) :
    let m1 := forLoop 0 (s.length + 1) (fun i m => setCell m 0 i i)
      (newMatrix (t.length + 1) (s.length + 1))
    WellSized m1 (t.length + 1) (s.length + 1) ∧
      ∀ i, i ≤ s.length → getCell m1 0 i = i := by
  intro m1
  have h := forLoop_invariant
    (fun k (m : Matrix) => WellSized m (t.length + 1) (s.length + 1) ∧
      ∀ i, i < k → getCell m 0 i = i)
    (fun i m => setCell m 0 i i) (s.length + 1) 0
    (newMatrix (t.length + 1) (s.length + 1))
    ⟨wellSized_newMatrix _ _, fun i hi => absurd hi (Nat.not_lt_zero i)⟩
    (by
      intro k m _ hk ⟨hw, hrow⟩
      refine ⟨wellSized_setCell hw _ _ _, ?_⟩
      intro i hi
      rw [getCell_setCell hw 0 k k 0 i (by omega) (by omega)]
      by_cases e : i = k
      · simp [e]
      · simp only [e, and_false, if_false]
        exact hrow i (by omega))
  exact ⟨h.1, fun i hi => h.2 i (by omega)⟩

/-- After the second loop, column 0 holds `0, 1, ..., str2.length` as well. -/
theorem firstColumn_filled (s t : JSString) (m1 : Matrix)
    (hw1 : WellSized m1 (t.length + 1) (s.length + 1))
    (hrow1 : ∀ i, i ≤ s.length → getCell m1 0 i = i) :
    let m2 := forLoop 0 (t.length + 1) (fun j m => setCell m j 0 j) m1
    WellSized m2 (t.length + 1) (s.length + 1) ∧
      (∀ i, i ≤ s.length → getCell m2 0 i = i) ∧
      ∀ j, j ≤ t.length → getCell m2 j 0 = j := by
  intro m2
  have h := forLoop_invariant
    (fun k (m : Matrix) => WellSized m (t.length + 1) (s.length + 1) ∧
      (∀ i, i ≤ s.length → getCell m 0 i = i) ∧ ∀ j, j < k → getCell m j 0 = j)
    (fun j m => setCell m j 0 j) (t.length + 1) 0 m1
    ⟨hw1, hrow1, fun j hj => absurd hj (Nat.not_lt_zero j)⟩
    (by
      intro k m _ hk ⟨hw, hrow, hcol⟩
      refine ⟨wellSized_setCell hw _ _ _, ?_, ?_⟩
      · intro i hi
        rw [getCell_setCell hw k 0 k 0 i (by omega) (by omega)]
        by_cases e : 0 = k ∧ i = 0
        · rw [if_pos e]; omega
        · rw [if_neg e]; exact hrow i hi
      · intro j hj
        rw [getCell_setCell hw k 0 k j 0 (by omega) (by omega)]
        by_cases e : j = k
        · simp [e]
        · simp only [e, false_and, if_false]
          exact hcol j (by omega))
  exact ⟨h.1, h.2.1, fun j hj => h.2.2 j (by omega)⟩

/-- One pass of the inner loop fills row `j` from the rows above it. -/
theorem row_filled (s t : JSString) (j : Nat) (hj1 : 1 ≤ j) (hj : j ≤ t.length) (m : Matrix)
    (hw : WellSized m (t.length + 1) (s.length + 1))
    (hm : ∀ j2 i2, j2 ≤ t.length → i2 ≤ s.length → (j2 < j ∨ i2 = 0) →
      getCell m j2 i2 = prefixDistance s t j2 i2) :
    let m2 := forLoop 1 s.length (fun i m =>
      let cost := if s[i - 1]? = t[j - 1]? then 0 else 1
      setCell m j i
        (min (getCell m j (i - 1) + 1)
          (min (getCell m (j - 1) i + 1) (getCell m (j - 1) (i - 1) + cost)))) m
    WellSized m2 (t.length + 1) (s.length + 1) ∧
      ∀ j2 i2, j2 ≤ t.length → i2 ≤ s.length → (j2 < j + 1 ∨ i2 = 0) →
        getCell m2 j2 i2 = prefixDistance s t j2 i2 := by
  intro m2
  have h := forLoop_invariant
    (fun k (m : Matrix) => WellSized m (t.length + 1) (s.length + 1) ∧
      ∀ j2 i2, j2 ≤ t.length → i2 ≤ s.length → (j2 < j ∨ i2 = 0 ∨ (j2 = j ∧ i2 < k)) →
        getCell m j2 i2 = prefixDistance s t j2 i2)
    (fun i m =>
      let cost := if s[i - 1]? = t[j - 1]? then 0 else 1
      setCell m j i
        (min (getCell m j (i - 1) + 1)
          (min (getCell m (j - 1) i + 1) (getCell m (j - 1) (i - 1) + cost))))
    s.length 1 m
    ⟨hw, by
      intro j2 i2 h1 h2 h3
      apply hm j2 i2 h1 h2
      omega⟩
    (by
      intro k m3 hk1 hk ⟨hw3, hm3⟩
      refine ⟨wellSized_setCell hw3 _ _ _, ?_⟩
      intro j2 i2 h1 h2 h3
      simp only
      rw [getCell_setCell hw3 j k _ j2 i2 (by omega) (by omega)]
      by_cases e : j2 = j ∧ i2 = k
      · rw [if_pos e, e.1, e.2]
        rw [hm3 j (k - 1) hj (by omega) (by omega),
          hm3 (j - 1) k (by omega) (by omega) (by omega),
          hm3 (j - 1) (k - 1) (by omega) (by omega) (by omega)]
        obtain ⟨k0, rfl⟩ : ∃ k0, k = k0 + 1 := ⟨k - 1, by omega⟩
        obtain ⟨j0, rfl⟩ : ∃ j0, j = j0 + 1 := ⟨j - 1, by omega⟩
        simp only [Nat.add_sub_cancel]
        rw [prefixDistance_succ s t j0 k0 (by omega) (by omega)]
      · rw [if_neg e]
        apply hm3 j2 i2 h1 h2
        omega)
  refine ⟨h.1, ?_⟩
  intro j2 i2 h1 h2 h3
  apply h.2 j2 i2 h1 h2
  omega

/-- The loops of `levenshteinDistance` compute the last cell of the table of
prefix distances. -/
theorem levenshteinDistance_eq_prefixDistance (s t : JSString) :
    levenshteinDistance s t = prefixDistance s t t.length s.length := by
  obtain ⟨hw1, hrow1⟩ := firstRow_filled s t
  obtain ⟨hw2, hrow2, hcol2⟩ := firstColumn_filled s t _ hw1 hrow1
  have h := forLoop_invariant
    (fun k (m : Matrix) => WellSized m (t.length + 1) (s.length + 1) ∧
      ∀ j2 i2, j2 ≤ t.length → i2 ≤ s.length → (j2 < k ∨ i2 = 0) →
        getCell m j2 i2 = prefixDistance s t j2 i2)
    (fun j m =>
      forLoop 1 s.length (fun i m =>
        let cost := if s[i - 1]? = t[j - 1]? then 0 else 1
        setCell m j i
          (min (getCell m j (i - 1) + 1)
            (min (getCell m (j - 1) i + 1) (getCell m (j - 1) (i - 1) + cost)))) m)
    t.length 1 _
    ⟨hw2, by
      intro j2 i2 h1 h2 h3
      rcases Nat.eq_zero_or_pos i2 with e | e
      · subst e; rw [hcol2 j2 h1, prefixDistance_zero_col s t j2 h1]
      · have e2 : j2 = 0 := by omega
        subst e2; rw [hrow2 i2 h2, prefixDistance_zero_row s t i2 h2]⟩
    (by
      intro k m hk1 hk ⟨hw, hm⟩
      exact row_filled s t k hk1 (by omega) m hw hm)
  unfold levenshteinDistance
  exact h.2 t.length s.length (le_refl _) (le_refl _) (by omega)

/-- The loops of `levenshteinDistance` compute the edit distance. -/
theorem levenshteinDistance_eq_editDistance (s t : JSString) :
    levenshteinDistance s t = editDistance s t := by
  rw [levenshteinDistance_eq_prefixDistance, prefixDistance, List.take_length,
    List.take_length, editDistance_reverse]

/-- C5: for all strings, `levenshteinDistance` equals the classical edit
distance: it is the value of the standard recursive definition, and it is the
least number of single-character insertions, deletions and substitutions that
transform the first string into the second. -/
theorem levenshteinDistance_classical (s t : JSString) :
    levenshteinDistance s t = editDistance s t ∧
    IsLeast {n | EditsIn n s t} (levenshteinDistance s t) := by
  refine ⟨levenshteinDistance_eq_editDistance s t, ?_, ?_⟩
  · rw [levenshteinDistance_eq_editDistance]
    exact editsIn_editDistance s t
  · intro n hn
    rw [levenshteinDistance_eq_editDistance]
    exact editDistance_le_of_editsIn hn

/-! ## Name similarity -/

theorem levenshteinDistance_comm (s t : JSString) :
    levenshteinDistance s t = levenshteinDistance t s := by
  rw [levenshteinDistance_eq_editDistance, levenshteinDistance_eq_editDistance,
    editDistance_comm]

theorem levenshteinDistance_le_max (s t : JSString) :
    levenshteinDistance s t ≤ max s.length t.length := by
  rw [levenshteinDistance_eq_editDistance]
  exact editDistance_le_max s t

/-- C6: name similarity is symmetric, for all names (`null`, `undefined` and
the empty string included) and for every lower-casing function. -/
theorem calculateNameSimilarity_comm (toLowerCase : JSString → JSString)
    (a b : JSText) :
    calculateNameSimilarity toLowerCase a b = calculateNameSimilarity toLowerCase b a := by
  cases a with
  | undefined => cases b <;> rfl
  | null => cases b <;> rfl
  | text a =>
    cases b with
    | undefined => rfl
    | null => rfl
    | text b =>
      simp only [calculateNameSimilarity]
      by_cases h1 : a = [] ∨ b = []
      · rw [if_pos h1, if_pos (Or.symm h1)]
      · rw [if_neg h1, if_neg (fun h => h1 (Or.symm h))]
        by_cases h2 : trim (toLowerCase a) = trim (toLowerCase b)
        · rw [if_pos h2, if_pos h2.symm]
        · rw [if_neg h2,
            if_neg (show ¬ trim (toLowerCase b) = trim (toLowerCase a) from fun h => h2 h.symm),
            levenshteinDistance_comm (trim (toLowerCase a)) (trim (toLowerCase b)),
            max_comm (trim (toLowerCase a)).length (trim (toLowerCase b)).length]

/-- C7 (the claim as stated fails): for the empty string the guard
`!name1 || !name2` answers first, so the similarity of `""` with itself is 0,
not 1. -/
theorem calculateNameSimilarity_empty_is_zero :
    trim (toLowerCaseASCII (js "")) = trim (toLowerCaseASCII (js "")) ∧
    calculateNameSimilarity toLowerCaseASCII (JSText.text (js "")) (JSText.text (js "")) = 0 ∧
    calculateNameSimilarity toLowerCaseASCII (JSText.text (js "")) (JSText.text (js "")) ≠ 1 := by
  decide!

/-- C7 (amended): for all non-empty strings `a` and `b` that are equal after
lower-casing and trimming, the similarity is exactly 1; in particular the
similarity of a non-empty string with itself is 1. -/
theorem calculateNameSimilarity_eq_one (toLowerCase : JSString → JSString)
    (a b : JSString) (ha : a ≠ []) (hb : b ≠ [])
    (h : trim (toLowerCase a) = trim (toLowerCase b)) :
    calculateNameSimilarity toLowerCase (JSText.text a) (JSText.text b) = 1 ∧
    calculateNameSimilarity toLowerCase (JSText.text a) (JSText.text a) = 1 := by
  simp [calculateNameSimilarity, ha, hb, h]

/-- C7 (amended), at `"Kiosk"` and `"kiosk "`. -/
theorem calculateNameSimilarity_eq_one_witness :
    calculateNameSimilarity toLowerCaseASCII (JSText.text (js "Kiosk"))
      (JSText.text (js "kiosk ")) = 1 ∧
    calculateNameSimilarity toLowerCaseASCII (JSText.text (js "Kiosk"))
      (JSText.text (js "Kiosk")) = 1 :=
  calculateNameSimilarity_eq_one toLowerCaseASCII (js "Kiosk") (js "kiosk ")
    (by decide) (by decide) (by decide)

theorem similarity_formula_bounds (s t : JSString) (h3 : ¬ max s.length t.length = 0) :
    0 ≤ 1 - (levenshteinDistance s t : ℚ) / ((max s.length t.length : Nat) : ℚ) ∧
    1 - (levenshteinDistance s t : ℚ) / ((max s.length t.length : Nat) : ℚ) ≤ 1 := by
  have hle := levenshteinDistance_le_max s t
  have hpos : (0 : ℚ) < ((max s.length t.length : Nat) : ℚ) := by
    exact_mod_cast Nat.pos_of_ne_zero h3
  have hle2 : ((levenshteinDistance s t : Nat) : ℚ) ≤ ((max s.length t.length : Nat) : ℚ) := by
    exact_mod_cast hle
  have hdiv := div_le_one_of_le₀ hle2 (le_of_lt hpos)
  have hnn : (0 : ℚ) ≤ (levenshteinDistance s t : ℚ) / ((max s.length t.length : Nat) : ℚ) :=
    div_nonneg (by positivity) (le_of_lt hpos)
  constructor <;> linarith

theorem calculateNameSimilarity_unit_interval (toLowerCase : JSString → JSString)
    (a b : JSText) :
    0 ≤ calculateNameSimilarity toLowerCase a b ∧
      calculateNameSimilarity toLowerCase a b ≤ 1 := by
  cases a with
  | undefined => cases b <;> simp [calculateNameSimilarity]
  | null => cases b <;> simp [calculateNameSimilarity]
  | text a =>
    cases b with
    | undefined => simp [calculateNameSimilarity]
    | null => simp [calculateNameSimilarity]
    | text b =>
      simp only [calculateNameSimilarity]
      split_ifs with h1 h2 h3
      · simp
      · simp
      · simp
      · exact similarity_formula_bounds _ _ h3

/-- C8: for all names (`null`, `undefined` and the empty string included) the
similarity lies in the closed interval from 0 to 1, and the distance of two
normalised strings is at most the longer of their lengths. -/
theorem calculateNameSimilarity_bounds (toLowerCase : JSString → JSString)
    (a b : JSText) :
    (0 ≤ calculateNameSimilarity toLowerCase a b ∧
      calculateNameSimilarity toLowerCase a b ≤ 1) ∧
    ∀ s t : JSString,
      levenshteinDistance (trim (toLowerCase s)) (trim (toLowerCase t)) ≤
        max (trim (toLowerCase s)).length (trim (toLowerCase t)).length :=
  ⟨calculateNameSimilarity_unit_interval toLowerCase a b,
    fun _ _ => levenshteinDistance_le_max _ _⟩

/-! ## The composite score -/

theorem calculateDistanceScore_bounds (d : ℚ) :
    0 ≤ calculateDistanceScore d ∧ calculateDistanceScore d ≤ 1 := by
  unfold calculateDistanceScore
  split_ifs <;> norm_num

theorem rankCandidates_perm (toLowerCase : JSString → JSString)
    (placeName category : JSText) (nearbyAddresses : List NearbyAddress) :
    (rankCandidates toLowerCase placeName category nearbyAddresses).Perm
      (nearbyAddresses.map (scoreCandidate toLowerCase placeName category)) :=
  List.perm_insertionSort _ _

theorem scoreCandidate_probability_bounds (toLowerCase : JSString → JSString)
    (placeName category : JSText) (address : NearbyAddress) :
    0 ≤ (scoreCandidate toLowerCase placeName category address).duplicate_probability ∧
    (scoreCandidate toLowerCase placeName category address).duplicate_probability ≤ 1 := by
  have hd := calculateDistanceScore_bounds address.distance_meters
  have hn := calculateNameSimilarity_unit_interval toLowerCase placeName address.place_name
  simp only [scoreCandidate]
  constructor
  · split_ifs <;> linarith [hd.1, hn.1]
  · split_ifs <;> linarith [hd.2, hn.2]

/-- C9: the rows returned by `checkForDuplicatesAdvanced` are the scored rows of
the proximity query, and for every such row (any distance, any place names,
any categories) `duplicate_probability` is
0.5 * distanceScore + 0.3 * nameScore + 0.2 * categoryScore and lies between 0
and 1. -/
theorem duplicate_probability_weighted_sum (toLowerCase : JSString → JSString)
    (placeName category : JSText) (nearbyAddresses : List NearbyAddress) :
    (rankCandidates toLowerCase placeName category nearbyAddresses).Perm
      (nearbyAddresses.map (scoreCandidate toLowerCase placeName category)) ∧
    ∀ address : NearbyAddress,
      (scoreCandidate toLowerCase placeName category address).duplicate_probability =
        0.5 * calculateDistanceScore address.distance_meters +
        0.3 * calculateNameSimilarity toLowerCase placeName address.place_name +
        0.2 * (if category = address.category then 1 else 0) ∧
      0 ≤ (scoreCandidate toLowerCase placeName category address).duplicate_probability ∧
      (scoreCandidate toLowerCase placeName category address).duplicate_probability ≤ 1 := by
  refine ⟨rankCandidates_perm _ _ _ _, ?_⟩
  intro address
  refine ⟨?_, scoreCandidate_probability_bounds toLowerCase placeName category address⟩
  simp only [scoreCandidate]
  ring

/-- C10: for every scored row `is_likely_duplicate` holds exactly when the
composite score is strictly greater than 0.7; a row at 5 m with an unrelated
name and the same category scores exactly 0.7 and is not marked. -/
theorem is_likely_duplicate_iff_above_threshold (toLowerCase : JSString → JSString)
    (placeName category : JSText) (nearbyAddresses : List NearbyAddress) :
    (rankCandidates toLowerCase placeName category nearbyAddresses).Perm
      (nearbyAddresses.map (scoreCandidate toLowerCase placeName category)) ∧
    (∀ address : NearbyAddress,
      (scoreCandidate toLowerCase placeName category address).is_likely_duplicate = true ↔
        (scoreCandidate toLowerCase placeName category address).duplicate_probability > 0.7) ∧
    (scoreCandidate toLowerCaseASCII (JSText.text (js "Kiosk")) (JSText.text (js "Commerce"))
        { id := 1, code := js "BF-OUA-7848-AB12", place_name := JSText.text (js "Depot"),
          latitude := 12.3714, longitude := -1.5197, category := JSText.text (js "Commerce"),
          verification_status := js "pending", distance_meters := 5 }).duplicate_probability
      = 0.7 ∧
    (scoreCandidate toLowerCaseASCII (JSText.text (js "Kiosk")) (JSText.text (js "Commerce"))
        { id := 1, code := js "BF-OUA-7848-AB12", place_name := JSText.text (js "Depot"),
          latitude := 12.3714, longitude := -1.5197, category := JSText.text (js "Commerce"),
          verification_status := js "pending", distance_meters := 5 }).is_likely_duplicate
      = false := by
  refine ⟨rankCandidates_perm _ _ _ _, ?_, by decide!, by decide!⟩
  intro address
  simp [scoreCandidate]

/-! ## The retry loop of address creation -/

theorem existingCode_length_eq_zero (pool : Pool) (code : JSString) :
    (pool.addresses.filter (fun a => decide (a.code = code))).length = 0 ↔
      code ∉ pool.addresses.map AddressRow.code := by
  rw [List.length_eq_zero, List.filter_eq_nil_iff]
  simp only [decide_eq_true_eq, List.mem_map, not_exists, not_and]

theorem uniqueCodeLoop_step (pool : Pool) (generate : Nat → JSString) (c : Option JSString)
    (k : Nat) (hk : k < 5) :
    uniqueCodeLoop pool generate { code := c, isUnique := false, attempts := k } =
      if generate k ∈ pool.addresses.map AddressRow.code then
        uniqueCodeLoop pool generate
          { code := some (generate k), isUnique := false, attempts := k + 1 }
      else
        uniqueCodeLoop pool generate
          { code := some (generate k), isUnique := true, attempts := k + 1 } := by
  rw [uniqueCodeLoop]
  simp only [Bool.not_false, Bool.true_and, decide_eq_true_eq, hk, if_true,
    existingCode_length_eq_zero]
  by_cases h : generate k ∈ pool.addresses.map AddressRow.code
  · rw [if_pos h]; simp only [h, not_true_eq_false, decide_False]
  · rw [if_neg h]; simp only [h, not_false_eq_true, decide_True]

theorem uniqueCodeLoop_unique (pool : Pool) (generate : Nat → JSString) (c : Option JSString)
    (k : Nat) :
    uniqueCodeLoop pool generate { code := c, isUnique := true, attempts := k } =
      { code := c, isUnique := true, attempts := k } := by
  rw [uniqueCodeLoop]
  simp

theorem uniqueCodeLoop_exhausted (pool : Pool) (generate : Nat → JSString)
    (c : Option JSString) :
    uniqueCodeLoop pool generate { code := c, isUnique := false, attempts := 5 } =
      { code := c, isUnique := false, attempts := 5 } := by
  rw [uniqueCodeLoop]
  simp

/-- The retry loop returns the first of the five candidates that is not persisted,
and the fifth candidate, marked as not unique, when all five are persisted. -/
theorem uniqueCodeLoop_eq (pool : Pool) (generate : Nat → JSString) :
    uniqueCodeLoop pool generate { code := none, isUnique := false, attempts := 0 } =
      match (List.range 5).find?
          (fun k => decide (generate k ∉ pool.addresses.map AddressRow.code)) with
      | some k => { code := some (generate k), isUnique := true, attempts := k + 1 }
      | none => { code := some (generate 4), isUnique := false, attempts := 5 } := by
  have hr : List.range 5 = [0, 1, 2, 3, 4] := by decide
  rw [hr, uniqueCodeLoop_step _ _ _ 0 (by omega)]
  by_cases h0 : generate 0 ∈ pool.addresses.map AddressRow.code
  · rw [if_pos h0, uniqueCodeLoop_step _ _ _ 1 (by omega)]
    by_cases h1 : generate 1 ∈ pool.addresses.map AddressRow.code
    · rw [if_pos h1, uniqueCodeLoop_step _ _ _ 2 (by omega)]
      by_cases h2 : generate 2 ∈ pool.addresses.map AddressRow.code
      · rw [if_pos h2, uniqueCodeLoop_step _ _ _ 3 (by omega)]
        by_cases h3 : generate 3 ∈ pool.addresses.map AddressRow.code
        · rw [if_pos h3, uniqueCodeLoop_step _ _ _ 4 (by omega)]
          by_cases h4 : generate 4 ∈ pool.addresses.map AddressRow.code
          · rw [if_pos h4, uniqueCodeLoop_exhausted]
            simp [List.find?, h0, h1, h2, h3, h4]
          · rw [if_neg h4, uniqueCodeLoop_unique]
            simp [List.find?, h0, h1, h2, h3, h4]
        · rw [if_neg h3, uniqueCodeLoop_unique]
          simp [List.find?, h0, h1, h2, h3]
      · rw [if_neg h2, uniqueCodeLoop_unique]
        simp [List.find?, h0, h1, h2]
    · rw [if_neg h1, uniqueCodeLoop_unique]
      simp [List.find?, h0, h1]
  · rw [if_neg h0, uniqueCodeLoop_unique]
    simp [List.find?, h0]

theorem forall_lt_four (P : Nat → Prop) :
    (∀ k, k < 4 → P k) ↔ P 0 ∧ P 1 ∧ P 2 ∧ P 3 := by
  constructor
  · intro h
    exact ⟨h 0 (by omega), h 1 (by omega), h 2 (by omega), h 3 (by omega)⟩
  · rintro ⟨h0, h1, h2, h3⟩ k hk
    interval_cases k
    · exact h0
    · exact h1
    · exact h2
    · exact h3

/-- C4: in the creation workflow, for every persisted state and every sequence
of generated candidates, the generator is called at most 5 times; the fifth
call happens exactly when the first four candidates are persisted codes; the
loop ends with the first of the five candidates that is not persisted, and the
two inserts use that code; when all five candidates are persisted the
response is the 500 error and the persisted state is unchanged. -/
theorem creation_retries_at_most_five (ext : Externals) (pool : Pool)
    (generate : Nat → JSString) (lat lon : ℚ) (placeName category : JSText)
    (photoUrl : JSString → Option JSString) :
    (uniqueCodeLoop pool generate { code := none, isUnique := false, attempts := 0 }).attempts
      ≤ 5 ∧
    ((uniqueCodeLoop pool generate
        { code := none, isUnique := false, attempts := 0 }).attempts = 5 ↔
      ∀ k, k < 4 → generate k ∈ pool.addresses.map AddressRow.code) ∧
    (uniqueCodeLoop pool generate { code := none, isUnique := false, attempts := 0 } =
      match (List.range 5).find?
          (fun k => decide (generate k ∉ pool.addresses.map AddressRow.code)) with
      | some k => { code := some (generate k), isUnique := true, attempts := k + 1 }
      | none => { code := some (generate 4), isUnique := false, attempts := 5 }) ∧
    insertWithUniqueCode ext pool generate lat lon placeName category photoUrl =
      match (List.range 5).find?
          (fun k => decide (generate k ∉ pool.addresses.map AddressRow.code)) with
      | some k =>
        (CreateResponse.created
          { id := pool.nextAddressId, code := generate k, latitude := lat, longitude := lon,
            place_name := placeName, category := category,
            building_photo_url := photoUrl (generate k),
            verification_status := ext.defaultVerificationStatus,
            confidence_score := ext.defaultConfidenceScore }
          (js "https://maptag.bf/" ++ generate k)
          (js "https://maptag.bf/s/" ++ ((jsSplit 45 (generate k)).getLast?).getD []),
         { addresses := pool.addresses ++
             [{ id := pool.nextAddressId, code := generate k, latitude := lat,
                longitude := lon, place_name := placeName, category := category,
                building_photo_url := photoUrl (generate k),
                verification_status := ext.defaultVerificationStatus,
                confidence_score := ext.defaultConfidenceScore }],
           verification_queue := pool.verification_queue ++
             [{ id := pool.nextQueueId, address_id := pool.nextAddressId,
                verification_type := js "photo_match", status := ext.defaultQueueStatus,
                ai_confidence := 0 }],
           nextAddressId := pool.nextAddressId + 1,
           nextQueueId := pool.nextQueueId + 1 })
      | none =>
        (CreateResponse.serverError
          "Unable to generate unique address code. Please try again.", pool) := by
  have hr : List.range 5 = [0, 1, 2, 3, 4] := by decide
  refine ⟨?_, ?_, uniqueCodeLoop_eq pool generate, ?_⟩
  · rw [uniqueCodeLoop_eq, hr]
    by_cases h0 : generate 0 ∈ pool.addresses.map AddressRow.code <;>
    by_cases h1 : generate 1 ∈ pool.addresses.map AddressRow.code <;>
    by_cases h2 : generate 2 ∈ pool.addresses.map AddressRow.code <;>
    by_cases h3 : generate 3 ∈ pool.addresses.map AddressRow.code <;>
    by_cases h4 : generate 4 ∈ pool.addresses.map AddressRow.code <;>
    simp [List.find?, h0, h1, h2, h3, h4]
  · rw [uniqueCodeLoop_eq, hr, forall_lt_four]
    by_cases h0 : generate 0 ∈ pool.addresses.map AddressRow.code <;>
    by_cases h1 : generate 1 ∈ pool.addresses.map AddressRow.code <;>
    by_cases h2 : generate 2 ∈ pool.addresses.map AddressRow.code <;>
    by_cases h3 : generate 3 ∈ pool.addresses.map AddressRow.code <;>
    by_cases h4 : generate 4 ∈ pool.addresses.map AddressRow.code <;>
    simp [List.find?, h0, h1, h2, h3, h4]
  · unfold insertWithUniqueCode
    rw [uniqueCodeLoop_eq]
    cases hf : (List.range 5).find?
        (fun k => decide (generate k ∉ pool.addresses.map AddressRow.code)) with
    | none => simp
    | some k => simp [insertAddress, insertQueueItem]

/-! ## Ranking of the candidates -/

theorem rankCandidates_sorted (toLowerCase : JSString → JSString)
    (placeName category : JSText) (nearbyAddresses : List NearbyAddress) :
    (rankCandidates toLowerCase placeName category nearbyAddresses).Sorted
      (fun a b => a.duplicate_probability ≥ b.duplicate_probability) := by
  haveI : IsTotal ScoredAddress (fun a b => a.duplicate_probability ≥ b.duplicate_probability) :=
    ⟨fun a b => le_total b.duplicate_probability a.duplicate_probability⟩
  haveI : IsTrans ScoredAddress (fun a b => a.duplicate_probability ≥ b.duplicate_probability) :=
    ⟨fun _ _ _ hab hbc => le_trans hbc hab⟩
  exact List.sorted_insertionSort _ _

theorem toNearbyAddress_scoreCandidate (toLowerCase : JSString → JSString)
    (placeName category : JSText) (address : NearbyAddress) :
    (scoreCandidate toLowerCase placeName category address).toNearbyAddress = address := rfl

/-- C11: for every list of rows of the proximity query, the rows returned by
`checkForDuplicatesAdvanced` are those rows, none dropped and none added, each
with its score, in non-increasing order of `duplicate_probability`. -/
theorem rankCandidates_sorted_permutation (ext : Externals) (pool : Pool)
    (latitude longitude radius : ℚ) (toLowerCase : JSString → JSString)
    (placeName category : JSText) (nearbyAddresses : List NearbyAddress) :
    ((rankCandidates toLowerCase placeName category nearbyAddresses).map
        ScoredAddress.toNearbyAddress).Perm nearbyAddresses ∧
    (rankCandidates toLowerCase placeName category nearbyAddresses).Perm
      (nearbyAddresses.map (scoreCandidate toLowerCase placeName category)) ∧
    (rankCandidates toLowerCase placeName category nearbyAddresses).Sorted
      (fun a b => a.duplicate_probability ≥ b.duplicate_probability) ∧
    checkForDuplicatesAdvanced ext pool latitude longitude placeName category radius =
      rankCandidates ext.toLowerCase placeName category
        (checkForDuplicates ext pool latitude longitude radius none) := by
  refine ⟨?_, rankCandidates_perm _ _ _ _, rankCandidates_sorted _ _ _ _, rfl⟩
  have h := (rankCandidates_perm toLowerCase placeName category nearbyAddresses).map
    ScoredAddress.toNearbyAddress
  have e : (nearbyAddresses.map (scoreCandidate toLowerCase placeName category)).map
      ScoredAddress.toNearbyAddress = nearbyAddresses := by
    rw [List.map_map]
    conv_rhs => rw [← List.map_id nearbyAddresses]
    apply List.map_congr_left
    intro a _
    rfl
  rw [e] at h
  exact h

/-- C13: `calculateDistanceScore` is the step function with values 1.0, 0.8,
0.6, 0.4, 0.2 on the intervals cut at 10, 20, 30 and 50, it is non-increasing,
and its values at 5 and at 100 are 1.0 and 0.2. -/
theorem calculateDistanceScore_step_antitone (d1 d2 : ℚ) (h : d1 ≤ d2) :
    calculateDistanceScore d2 ≤ calculateDistanceScore d1 ∧
    ((d1 ≤ 10 ∧ calculateDistanceScore d1 = 1.0) ∨
      (10 < d1 ∧ d1 ≤ 20 ∧ calculateDistanceScore d1 = 0.8) ∨
      (20 < d1 ∧ d1 ≤ 30 ∧ calculateDistanceScore d1 = 0.6) ∨
      (30 < d1 ∧ d1 ≤ 50 ∧ calculateDistanceScore d1 = 0.4) ∨
      (50 < d1 ∧ calculateDistanceScore d1 = 0.2)) ∧
    calculateDistanceScore 5 = 1.0 ∧ calculateDistanceScore 100 = 0.2 := by
  refine ⟨?_, ?_, by norm_num [calculateDistanceScore], by norm_num [calculateDistanceScore]⟩
  · unfold calculateDistanceScore
    split_ifs <;> (try norm_num) <;> linarith
  · unfold calculateDistanceScore
    by_cases h1 : d1 ≤ 10
    · left; exact ⟨h1, by rw [if_pos h1]⟩
    · right
      by_cases h2 : d1 ≤ 20
      · left; exact ⟨lt_of_not_le h1, h2, by rw [if_neg h1, if_pos h2]⟩
      · right
        by_cases h3 : d1 ≤ 30
        · left; exact ⟨lt_of_not_le h2, h3, by rw [if_neg h1, if_neg h2, if_pos h3]⟩
        · right
          by_cases h4 : d1 ≤ 50
          · left
            exact ⟨lt_of_not_le h3, h4, by rw [if_neg h1, if_neg h2, if_neg h3, if_pos h4]⟩
          · right
            exact ⟨lt_of_not_le h4, by rw [if_neg h1, if_neg h2, if_neg h3, if_neg h4]⟩

/-- C13, at the distances 5 and 100. -/
theorem calculateDistanceScore_step_antitone_witness :
    calculateDistanceScore 100 ≤ calculateDistanceScore 5 ∧
    (((5 : ℚ) ≤ 10 ∧ calculateDistanceScore 5 = 1.0) ∨
      ((10 : ℚ) < 5 ∧ (5 : ℚ) ≤ 20 ∧ calculateDistanceScore 5 = 0.8) ∨
      ((20 : ℚ) < 5 ∧ (5 : ℚ) ≤ 30 ∧ calculateDistanceScore 5 = 0.6) ∨
      ((30 : ℚ) < 5 ∧ (5 : ℚ) ≤ 50 ∧ calculateDistanceScore 5 = 0.4) ∨
      ((50 : ℚ) < 5 ∧ calculateDistanceScore 5 = 0.2)) ∧
    calculateDistanceScore 5 = 1.0 ∧ calculateDistanceScore 100 = 0.2 :=
  calculateDistanceScore_step_antitone 5 100 (by norm_num)

theorem exists_text_of_not_isFalsy (x : JSText) (h : isFalsy x = false) :
    ∃ n : JSString, x = JSText.text n ∧ n ≠ [] := by
  cases x with
  | undefined => simp [isFalsy] at h
  | null => simp [isFalsy] at h
  | text n =>
    refine ⟨n, rfl, ?_⟩
    intro hn
    simp [isFalsy, hn] at h

theorem scoreCandidate_exact_match (toLowerCase : JSString → JSString)
    (placeName category : JSText) (address : NearbyAddress)
    (hname : isFalsy placeName = false) (hsame : address.place_name = placeName)
    (hcat : address.category = category) (hdist : address.distance_meters = 0) :
    (scoreCandidate toLowerCase placeName category address).duplicate_probability = 1 ∧
    (scoreCandidate toLowerCase placeName category address).is_likely_duplicate = true := by
  obtain ⟨n, rfl, hn⟩ := exists_text_of_not_isFalsy placeName hname
  have hsim : calculateNameSimilarity toLowerCase (JSText.text n) address.place_name = 1 := by
    rw [hsame]
    simp [calculateNameSimilarity, hn]
  have hd : calculateDistanceScore address.distance_meters = 1 := by
    rw [hdist]; norm_num [calculateDistanceScore]
  have hp : (scoreCandidate toLowerCase (JSText.text n) category address).duplicate_probability
      = 1 := by
    simp only [scoreCandidate, hsim, hd, hcat, if_true]
    norm_num
  refine ⟨hp, ?_⟩
  have hl : (scoreCandidate toLowerCase (JSText.text n) category address).is_likely_duplicate
      = decide ((scoreCandidate toLowerCase (JSText.text n) category address).duplicate_probability
          > 0.7) := rfl
  rw [hl, hp]
  norm_num

/-- C12: for a submission (a non-empty place name) and a proximity result that
contains an address at distance 0 with the same place name and the same
category, `checkForDuplicatesAdvanced` returns that address with
`duplicate_probability` 1 and `is_likely_duplicate` true; every row before it
has a probability at least as large, and no row has a larger one. -/
theorem exact_match_is_top_match (toLowerCase : JSString → JSString)
    (placeName category : JSText) (nearbyAddresses : List NearbyAddress)
    (address : NearbyAddress) (hmem : address ∈ nearbyAddresses)
    (hname : isFalsy placeName = false) (hsame : address.place_name = placeName)
    (hcat : address.category = category) (hdist : address.distance_meters = 0) :
    scoreCandidate toLowerCase placeName category address ∈
      rankCandidates toLowerCase placeName category nearbyAddresses ∧
    (scoreCandidate toLowerCase placeName category address).duplicate_probability = 1 ∧
    (scoreCandidate toLowerCase placeName category address).is_likely_duplicate = true ∧
    (∀ before after : List ScoredAddress,
      rankCandidates toLowerCase placeName category nearbyAddresses =
        before ++ scoreCandidate toLowerCase placeName category address :: after →
      ∀ x ∈ before,
        (scoreCandidate toLowerCase placeName category address).duplicate_probability ≤
          x.duplicate_probability) ∧
    ∀ x ∈ rankCandidates toLowerCase placeName category nearbyAddresses,
      x.duplicate_probability ≤
        (scoreCandidate toLowerCase placeName category address).duplicate_probability := by
  obtain ⟨hp, hl⟩ := scoreCandidate_exact_match toLowerCase placeName category address
    hname hsame hcat hdist
  have hperm := rankCandidates_perm toLowerCase placeName category nearbyAddresses
  refine ⟨?_, hp, hl, ?_, ?_⟩
  · exact hperm.mem_iff.mpr (List.mem_map.mpr ⟨address, hmem, rfl⟩)
  · intro before after heq x hx
    have hs := rankCandidates_sorted toLowerCase placeName category nearbyAddresses
    rw [heq] at hs
    exact (List.pairwise_append.mp hs).2.2 x hx _ (List.mem_cons_self _ _)
  · intro x hx
    obtain ⟨a, _, rfl⟩ := List.mem_map.mp (hperm.mem_iff.mp hx)
    rw [hp]
    exact (scoreCandidate_probability_bounds toLowerCase placeName category a).2

/-- C12, for the stored address (12.30, -1.40, "Shop A", "Commerce") and an
identical submission. -/
theorem exact_match_is_top_match_witness :
    scoreCandidate toLowerCaseASCII (JSText.text (js "Shop A")) (JSText.text (js "Commerce"))
        { id := 1, code := js "BF-OTH-7860-AB12", place_name := JSText.text (js "Shop A"),
          latitude := 12.30, longitude := -1.40, category := JSText.text (js "Commerce"),
          verification_status := js "pending", distance_meters := 0 } ∈
      rankCandidates toLowerCaseASCII (JSText.text (js "Shop A")) (JSText.text (js "Commerce"))
        [{ id := 1, code := js "BF-OTH-7860-AB12", place_name := JSText.text (js "Shop A"),
           latitude := 12.30, longitude := -1.40, category := JSText.text (js "Commerce"),
           verification_status := js "pending", distance_meters := 0 }] ∧
    (scoreCandidate toLowerCaseASCII (JSText.text (js "Shop A")) (JSText.text (js "Commerce"))
        { id := 1, code := js "BF-OTH-7860-AB12", place_name := JSText.text (js "Shop A"),
          latitude := 12.30, longitude := -1.40, category := JSText.text (js "Commerce"),
          verification_status := js "pending", distance_meters := 0 }).duplicate_probability
      = 1 ∧
    (scoreCandidate toLowerCaseASCII (JSText.text (js "Shop A")) (JSText.text (js "Commerce"))
        { id := 1, code := js "BF-OTH-7860-AB12", place_name := JSText.text (js "Shop A"),
          latitude := 12.30, longitude := -1.40, category := JSText.text (js "Commerce"),
          verification_status := js "pending", distance_meters := 0 }).is_likely_duplicate
      = true :=
  have h := exact_match_is_top_match toLowerCaseASCII (JSText.text (js "Shop A"))
    (JSText.text (js "Commerce"))
    [{ id := 1, code := js "BF-OTH-7860-AB12", place_name := JSText.text (js "Shop A"),
       latitude := 12.30, longitude := -1.40, category := JSText.text (js "Commerce"),
       verification_status := js "pending", distance_meters := 0 }]
    { id := 1, code := js "BF-OTH-7860-AB12", place_name := JSText.text (js "Shop A"),
      latitude := 12.30, longitude := -1.40, category := JSText.text (js "Commerce"),
      verification_status := js "pending", distance_meters := 0 }
    (List.mem_singleton.mpr rfl) (by decide) rfl rfl rfl
  ⟨h.1, h.2.1, h.2.2.1⟩

/-! ## The duplicate check of address creation -/

/-- A submission that passes the checks of the route reaches the duplicate
check, which either answers 409 or hands over to the code generation. -/
theorem createAddress_of_valid (ext : Externals) (rnd : Nat → JSString) (pool : Pool)
    (req : CreateRequest) (lat lon : ℚ)
    (hlat : req.latitude = CoordinateField.number lat)
    (hlon : req.longitude = CoordinateField.number lon)
    (hname : isFalsy req.placeName = false)
    (hrange : 9.4 ≤ lat ∧ lat ≤ 15.1 ∧ -5.6 ≤ lon ∧ lon ≤ 2.5) :
    createAddress ext rnd pool req =
      if ((checkForDuplicatesAdvanced ext pool lat lon req.placeName
            (if isFalsy req.category = true then JSText.text (js "Other") else req.category)
            50).filter (fun d => d.is_likely_duplicate)).length > 0 then
        (CreateResponse.conflict "Potential duplicate detected"
          ((checkForDuplicatesAdvanced ext pool lat lon req.placeName
            (if isFalsy req.category = true then JSText.text (js "Other") else req.category)
            50).filter (fun d => d.is_likely_duplicate)), pool)
      else
        insertWithUniqueCode ext pool
          (fun k => generateAddressCode lat lon req.placeName (rnd k))
          lat lon req.placeName
          (if isFalsy req.category = true then JSText.text (js "Other") else req.category)
          req.photoUrl := by
  obtain ⟨h1, h2, h3, h4⟩ := hrange
  have g1 : ¬ (lat < -90 ∨ lat > 90 ∨ lon < -180 ∨ lon > 180) := by
    rintro (h | h | h | h) <;> linarith
  have g2 : ¬ (lat < 9.4 ∨ lat > 15.1 ∨ lon < -5.6 ∨ lon > 2.5) := by
    rintro (h | h | h | h) <;> linarith
  unfold createAddress
  rw [hlat, hlon, hname]
  simp only [reduceCtorEq, Bool.false_eq_true, or_self, if_false, g1, g2]

theorem insertWithUniqueCode_ne_conflict (ext : Externals) (pool : Pool)
    (generate : Nat → JSString) (lat lon : ℚ) (placeName category : JSText)
    (photoUrl : JSString → Option JSString) (e : String) (l : List ScoredAddress) :
    (insertWithUniqueCode ext pool generate lat lon placeName category photoUrl).1 ≠
      CreateResponse.conflict e l := by
  unfold insertWithUniqueCode
  simp only
  split <;> simp

/-- C14: for every valid submission, either the detector returns a likely
duplicate, and then creation answers 409 and leaves the persisted state as it
was (no address row, no queue row), or it returns none, and then creation goes
on to the code generation and its answer is not a conflict. -/
theorem conflict_iff_likely_duplicate (ext : Externals) (rnd : Nat → JSString) (pool : Pool)
    (req : CreateRequest) (lat lon : ℚ)
    (hlat : req.latitude = CoordinateField.number lat)
    (hlon : req.longitude = CoordinateField.number lon)
    (hname : isFalsy req.placeName = false)
    (hrange : 9.4 ≤ lat ∧ lat ≤ 15.1 ∧ -5.6 ≤ lon ∧ lon ≤ 2.5) :
    ((∃ d ∈ checkForDuplicatesAdvanced ext pool lat lon req.placeName
          (if isFalsy req.category = true then JSText.text (js "Other") else req.category) 50,
        d.is_likely_duplicate = true) ∧
      (createAddress ext rnd pool req).2 = pool ∧
      ∃ l, (createAddress ext rnd pool req).1 =
        CreateResponse.conflict "Potential duplicate detected" l) ∨
    ((∀ d ∈ checkForDuplicatesAdvanced ext pool lat lon req.placeName
          (if isFalsy req.category = true then JSText.text (js "Other") else req.category) 50,
        d.is_likely_duplicate = false) ∧
      (∀ e l, (createAddress ext rnd pool req).1 ≠ CreateResponse.conflict e l) ∧
      createAddress ext rnd pool req =
        insertWithUniqueCode ext pool
          (fun k => generateAddressCode lat lon req.placeName (rnd k))
          lat lon req.placeName
          (if isFalsy req.category = true then JSText.text (js "Other") else req.category)
          req.photoUrl) := by
  rw [createAddress_of_valid ext rnd pool req lat lon hlat hlon hname hrange]
  by_cases h : ((checkForDuplicatesAdvanced ext pool lat lon req.placeName
      (if isFalsy req.category = true then JSText.text (js "Other") else req.category)
      50).filter (fun d => d.is_likely_duplicate)).length > 0
  · left
    rw [if_pos h]
    refine ⟨?_, rfl, _, rfl⟩
    obtain ⟨d, hd⟩ := List.exists_mem_of_length_pos h
    rw [List.mem_filter] at hd
    exact ⟨d, hd.1, hd.2⟩
  · right
    rw [if_neg h]
    refine ⟨?_, fun e l => insertWithUniqueCode_ne_conflict _ _ _ _ _ _ _ _ e l, rfl⟩
    intro d hd
    cases hl : d.is_likely_duplicate with
    | false => rfl
    | true =>
      exfalso
      apply h
      apply List.length_pos_of_mem
      exact List.mem_filter.mpr ⟨hd, hl⟩

/-- C14, for the sample submission, which repeats a stored address. -/
theorem conflict_iff_likely_duplicate_witness :
    ((∃ d ∈ checkForDuplicatesAdvanced sampleExternals samplePool 12.30 (-1.40)
          sampleRequest.placeName
          (if isFalsy sampleRequest.category = true then JSText.text (js "Other")
            else sampleRequest.category) 50,
        d.is_likely_duplicate = true) ∧
      (createAddress sampleExternals (fun _ => js "0.ab12cd") samplePool sampleRequest).2
        = samplePool ∧
      ∃ l, (createAddress sampleExternals (fun _ => js "0.ab12cd") samplePool sampleRequest).1 =
        CreateResponse.conflict "Potential duplicate detected" l) ∨
    ((∀ d ∈ checkForDuplicatesAdvanced sampleExternals samplePool 12.30 (-1.40)
          sampleRequest.placeName
          (if isFalsy sampleRequest.category = true then JSText.text (js "Other")
            else sampleRequest.category) 50,
        d.is_likely_duplicate = false) ∧
      (∀ e l, (createAddress sampleExternals (fun _ => js "0.ab12cd") samplePool
        sampleRequest).1 ≠ CreateResponse.conflict e l) ∧
      createAddress sampleExternals (fun _ => js "0.ab12cd") samplePool sampleRequest =
        insertWithUniqueCode sampleExternals samplePool
          (fun _ => generateAddressCode 12.30 (-1.40) sampleRequest.placeName (js "0.ab12cd"))
          12.30 (-1.40) sampleRequest.placeName
          (if isFalsy sampleRequest.category = true then JSText.text (js "Other")
            else sampleRequest.category)
          sampleRequest.photoUrl) :=
  conflict_iff_likely_duplicate sampleExternals (fun _ => js "0.ab12cd") samplePool
    sampleRequest 12.30 (-1.40) rfl rfl (by decide) (by norm_num)

/-- C15 (the claim as stated fails): the sample submission has two candidates
within the radius, one of them a likely duplicate; the 409 answer carries only
that one, not the list of two that the detector returned. -/
theorem conflict_list_is_not_full_list :
    (createAddress sampleExternals (fun _ => js "0.ab12cd") samplePool sampleRequest).1 =
      CreateResponse.conflict "Potential duplicate detected"
        ((checkForDuplicatesAdvanced sampleExternals samplePool 12.30 (-1.40)
          (JSText.text (js "Shop A")) (JSText.text (js "Commerce")) 50).filter
            (fun d => d.is_likely_duplicate)) ∧
    ((checkForDuplicatesAdvanced sampleExternals samplePool 12.30 (-1.40)
      (JSText.text (js "Shop A")) (JSText.text (js "Commerce")) 50).filter
        (fun d => d.is_likely_duplicate)).length = 1 ∧
    (checkForDuplicatesAdvanced sampleExternals samplePool 12.30 (-1.40)
      (JSText.text (js "Shop A")) (JSText.text (js "Commerce")) 50).length = 2 ∧
    (createAddress sampleExternals (fun _ => js "0.ab12cd") samplePool sampleRequest).1 ≠
      CreateResponse.conflict "Potential duplicate detected"
        (checkForDuplicatesAdvanced sampleExternals samplePool 12.30 (-1.40)
          (JSText.text (js "Shop A")) (JSText.text (js "Commerce")) 50) := by
  decide!

/-- C15 (amended): whenever creation answers 409, the list attached is the
ranked list of the detector restricted to the candidates marked as likely
duplicates, in the same order, and it is not empty. -/
theorem conflict_list_is_likely_duplicates (ext : Externals) (rnd : Nat → JSString)
    (pool : Pool) (req : CreateRequest) (e : String) (l : List ScoredAddress)
    (h : (createAddress ext rnd pool req).1 = CreateResponse.conflict e l) :
    ∃ lat lon : ℚ,
      req.latitude = CoordinateField.number lat ∧ req.longitude = CoordinateField.number lon ∧
      l = (checkForDuplicatesAdvanced ext pool lat lon req.placeName
            (if isFalsy req.category = true then JSText.text (js "Other") else req.category)
            50).filter (fun d => d.is_likely_duplicate) ∧
      l.Sublist (checkForDuplicatesAdvanced ext pool lat lon req.placeName
            (if isFalsy req.category = true then JSText.text (js "Other") else req.category)
            50) ∧
      l ≠ [] := by
  cases hlat : req.latitude with
  | missing =>
    unfold createAddress at h
    simp [hlat] at h
  | notANumber =>
    unfold createAddress at h
    rw [hlat] at h
    split_ifs at h
  | number lat =>
    cases hlon : req.longitude with
    | missing =>
      unfold createAddress at h
      simp [hlon] at h
    | notANumber =>
      unfold createAddress at h
      rw [hlat, hlon] at h
      split_ifs at h
    | number lon =>
      cases hname : isFalsy req.placeName with
      | true =>
        unfold createAddress at h
        simp [hname] at h
      | false =>
        by_cases g1 : lat < -90 ∨ lat > 90 ∨ lon < -180 ∨ lon > 180
        · unfold createAddress at h
          rw [hlat, hlon, hname] at h
          simp only [reduceCtorEq, Bool.false_eq_true, or_self, if_false, g1, if_true] at h
        · by_cases g2 : lat < 9.4 ∨ lat > 15.1 ∨ lon < -5.6 ∨ lon > 2.5
          · unfold createAddress at h
            rw [hlat, hlon, hname] at h
            simp only [reduceCtorEq, Bool.false_eq_true, or_self, if_false, g1, g2, if_true] at h
          · have hr : 9.4 ≤ lat ∧ lat ≤ 15.1 ∧ -5.6 ≤ lon ∧ lon ≤ 2.5 := by
              simp only [not_or, not_lt, gt_iff_lt] at g2
              exact g2
            rw [createAddress_of_valid ext rnd pool req lat lon hlat hlon hname hr] at h
            generalize (if isFalsy req.category = true then JSText.text (js "Other")
              else req.category) = cat at h ⊢
            split_ifs at h with hpos
            · simp only [CreateResponse.conflict.injEq] at h
              obtain ⟨-, rfl⟩ := h
              exact ⟨lat, lon, rfl, rfl, rfl, List.filter_sublist _,
                List.ne_nil_of_length_pos hpos⟩
            · exact absurd h (insertWithUniqueCode_ne_conflict _ _ _ _ _ _ _ _ e l)

/-- C15 (amended), for the sample submission. -/
theorem conflict_list_is_likely_duplicates_witness :
    ∃ lat lon : ℚ,
      sampleRequest.latitude = CoordinateField.number lat ∧
      sampleRequest.longitude = CoordinateField.number lon ∧
      (checkForDuplicatesAdvanced sampleExternals samplePool 12.30 (-1.40)
          (JSText.text (js "Shop A")) (JSText.text (js "Commerce")) 50).filter
            (fun d => d.is_likely_duplicate) =
        (checkForDuplicatesAdvanced sampleExternals samplePool lat lon sampleRequest.placeName
            (if isFalsy sampleRequest.category = true then JSText.text (js "Other")
              else sampleRequest.category)
            50).filter (fun d => d.is_likely_duplicate) ∧
      ((checkForDuplicatesAdvanced sampleExternals samplePool 12.30 (-1.40)
          (JSText.text (js "Shop A")) (JSText.text (js "Commerce")) 50).filter
            (fun d => d.is_likely_duplicate)).Sublist
        (checkForDuplicatesAdvanced sampleExternals samplePool lat lon sampleRequest.placeName
            (if isFalsy sampleRequest.category = true then JSText.text (js "Other")
              else sampleRequest.category)
            50) ∧
      (checkForDuplicatesAdvanced sampleExternals samplePool 12.30 (-1.40)
          (JSText.text (js "Shop A")) (JSText.text (js "Commerce")) 50).filter
            (fun d => d.is_likely_duplicate) ≠ [] :=
  conflict_list_is_likely_duplicates sampleExternals (fun _ => js "0.ab12cd") samplePool
    sampleRequest "Potential duplicate detected" _ (by decide!)

/-! ## Processing of the verification queue -/

theorem switchAction_eq_none_iff (action : JSText) (cs : Option ℚ) :
    switchAction action cs = none ↔ action ∉ validActions := by
  unfold switchAction validActions
  by_cases h1 : action = JSText.text (js "approve")
  · rw [if_pos h1]; simp [h1]
  · rw [if_neg h1]
    by_cases h2 : action = JSText.text (js "reject")
    · rw [if_pos h2]; simp [h2]
    · rw [if_neg h2]
      by_cases h3 : action = JSText.text (js "flag")
      · rw [if_pos h3]; simp [h3]
      · rw [if_neg h3]; simp [h1, h2, h3]

theorem mem_validActions_of_switchAction {action : JSText} {cs : Option ℚ} {r : JSString × ℚ}
    (h : switchAction action cs = some r) : action ∈ validActions := by
  by_contra hn
  rw [(switchAction_eq_none_iff action cs).mpr hn] at h
  cases h

theorem switchAction_of_mem_actionOutcomes {action st : JSString} {c : ℚ}
    (h : (action, st, c) ∈ actionOutcomes) :
    switchAction (JSText.text action) none = some (st, c) := by
  simp only [actionOutcomes, List.mem_cons, Prod.mk.injEq, List.mem_singleton,
    List.not_mem_nil, or_false] at h
  rcases h with ⟨rfl, rfl, rfl⟩ | ⟨rfl, rfl, rfl⟩ | ⟨rfl, rfl, rfl⟩ <;> decide

theorem processQueueItem_invalid (fault : Nat → Bool) (pool : Pool) (queueId : Nat)
    (req : ProcessRequest) (h : req.action ∉ validActions) :
    processQueueItem fault pool queueId req =
      (ProcessResponse.badRequest "Invalid action. Must be approve, reject, or flag", pool) := by
  unfold processQueueItem
  rw [if_pos h]

theorem processQueueItem_missing (pool : Pool) (queueId : Nat) (req : ProcessRequest)
    (hv : req.action ∈ validActions)
    (hf : pool.verification_queue.filter (fun q => decide (q.id = queueId)) = []) :
    processQueueItem noFault pool queueId req =
      (ProcessResponse.notFound "Verification queue item not found", pool) := by
  unfold processQueueItem
  rw [if_neg (not_not.mpr hv), hf]
  simp [noFault]

theorem processQueueItem_found (pool : Pool) (queueId : Nat) (req : ProcessRequest)
    (row : QueueRow) (rest : List QueueRow) (st : JSString) (c : ℚ)
    (hf : pool.verification_queue.filter (fun q => decide (q.id = queueId)) = row :: rest)
    (hsw : switchAction req.action req.confidence_score = some (st, c)) :
    processQueueItem noFault pool queueId req =
      (ProcessResponse.ok
        (js "Address verification " ++ actionText req.action ++ js "ed successfully") st c,
       { pool with
         verification_queue := completeQueueItems (fun q => decide (q.id = queueId))
           (orDefault req.confidence_score 0) pool.verification_queue,
         addresses := setVerification (fun a => decide (a.id = row.address_id)) st c
           pool.addresses }) := by
  unfold processQueueItem
  rw [if_neg (not_not.mpr (mem_validActions_of_switchAction hsw)), hf, hsw]
  simp [noFault]

theorem batchProcess_invalid (fault : Nat → Bool) (pool : Pool) (ids : List Nat)
    (action : JSText) (cs : Option ℚ) (hne : ids ≠ []) (h : action ∉ validActions) :
    batchProcess fault pool { queue_ids := some ids, action := action, confidence_score := cs } =
      (BatchResponse.badRequest "Invalid action. Must be approve, reject, or flag", pool) := by
  unfold batchProcess
  simp only
  rw [if_neg (by simpa using hne), if_pos h]

theorem batchProcess_ok (pool : Pool) (ids : List Nat) (action : JSText) (cs : Option ℚ)
    (st : JSString) (c : ℚ) (hne : ids ≠ [])
    (hsw : switchAction action cs = some (st, c)) :
    batchProcess noFault pool { queue_ids := some ids, action := action, confidence_score := cs } =
      (BatchResponse.ok
        (natToString ids.length ++ js " addresses " ++ actionText action ++
          js "ed successfully") ids.length st,
       { pool with
         verification_queue := completeQueueItems (fun q => decide (q.id ∈ ids)) c
           pool.verification_queue,
         addresses := setVerification
           (fun a => decide (a.id ∈
             ((completeQueueItems (fun q => decide (q.id ∈ ids)) c
               pool.verification_queue).filter (fun q => decide (q.id ∈ ids))).map
                 (fun row => row.address_id)))
           st c pool.addresses }) := by
  unfold batchProcess
  simp only
  rw [if_neg (by simpa using hne), if_neg (not_not.mpr (mem_validActions_of_switchAction hsw)),
    hsw]
  simp [noFault]

theorem filter_eq_cons_of_find? {α : Type} (p : α → Bool) (l : List α) (q : α)
    (h : l.find? p = some q) : ∃ rest, l.filter p = q :: rest := by
  induction l with
  | nil => simp at h
  | cons x xs ih =>
    cases hp : p x with
    | true =>
      simp only [List.find?, hp, Option.some.injEq] at h
      subst h
      exact ⟨xs.filter p, by simp [List.filter, hp]⟩
    | false =>
      simp only [List.find?, hp] at h
      obtain ⟨rest, hr⟩ := ih h
      exact ⟨rest, by simp [List.filter, hp, hr]⟩

theorem find?_of_filter_eq_cons {α : Type} (p : α → Bool) (l : List α) (q : α)
    (rest : List α) (h : l.filter p = q :: rest) : l.find? p = some q := by
  induction l with
  | nil => simp at h
  | cons x xs ih =>
    cases hp : p x with
    | true =>
      simp only [List.filter, hp, List.cons.injEq] at h
      rw [← h.1]
      simp [List.find?, hp]
    | false =>
      simp only [List.filter, hp] at h
      simp only [List.find?, hp]
      exact ih h

theorem map_id_setVerification (selected : AddressRow → Bool) (st : JSString) (c : ℚ)
    (l : List AddressRow) :
    (setVerification selected st c l).map AddressRow.id = l.map AddressRow.id := by
  unfold setVerification
  rw [List.map_map]
  apply List.map_congr_left
  intro a _
  simp only [Function.comp]
  split <;> rfl

theorem setVerification_of_selected (selected : AddressRow → Bool) (st : JSString) (c : ℚ)
    (l : List AddressRow) (addressId : Nat)
    (hsel : ∀ a : AddressRow, a.id = addressId → selected a = true) :
    ∀ a ∈ setVerification selected st c l, a.id = addressId →
      a.verification_status = st ∧ a.confidence_score = c := by
  intro a ha hid
  unfold setVerification at ha
  obtain ⟨b, _, rfl⟩ := List.mem_map.mp ha
  by_cases hb : selected b = true
  · rw [if_pos hb]; exact ⟨rfl, rfl⟩
  · rw [if_neg hb] at hid
    exact absurd (hsel b hid) hb

theorem completeQueueItems_of_selected (selected : QueueRow → Bool) (conf : ℚ)
    (l : List QueueRow) (queueId : Nat)
    (hsel : ∀ x : QueueRow, x.id = queueId → selected x = true) :
    ∀ x ∈ completeQueueItems selected conf l, x.id = queueId →
      x.status = js "completed" ∧ x.ai_confidence = conf := by
  intro x hx hid
  unfold completeQueueItems at hx
  obtain ⟨b, _, rfl⟩ := List.mem_map.mp hx
  by_cases hb : selected b = true
  · rw [if_pos hb]; exact ⟨rfl, rfl⟩
  · rw [if_neg hb] at hid
    exact absurd (hsel b hid) hb

theorem completeQueueItems_keys (selected : QueueRow → Bool) (conf : ℚ) (l : List QueueRow) :
    (completeQueueItems selected conf l).map (fun x => (x.id, x.address_id)) =
      l.map (fun x => (x.id, x.address_id)) := by
  unfold completeQueueItems
  rw [List.map_map]
  apply List.map_congr_left
  intro a _
  simp only [Function.comp]
  split <;> rfl

/-- The address ids that the batch route reads back are those of the listed
queue items. -/
theorem mem_batch_addressIds (ids : List Nat) (conf : ℚ) (queue : List QueueRow) (aid : Nat) :
    aid ∈ ((completeQueueItems (fun q => decide (q.id ∈ ids)) conf queue).filter
        (fun q => decide (q.id ∈ ids))).map (fun row => row.address_id) ↔
      ∃ q ∈ queue, q.id ∈ ids ∧ q.address_id = aid := by
  simp only [completeQueueItems, List.mem_map, List.mem_filter, decide_eq_true_eq]
  constructor
  · rintro ⟨x, ⟨⟨b, hb, rfl⟩, hx⟩, rfl⟩
    by_cases h : b.id ∈ ids
    · exact ⟨b, hb, h, by simp [h]⟩
    · simp [h] at hx
  · rintro ⟨q, hq, hid, rfl⟩
    exact ⟨{ q with status := js "completed", ai_confidence := conf },
      ⟨⟨q, hq, by simp [hid]⟩, hid⟩, rfl⟩

/-- C16: for a stored queue item and an action of the table, sent without a
confidence, single-item processing and batch processing of a list that
contains the item both answer with the status of the table, keep the stored
rows and their ids, give every address owned by the item the status and the
confidence of the table (approve: verified, 95; reject: rejected, 0; flag:
flagged, 25), and mark the item as completed. -/
theorem verification_outcome_table (pool : Pool) (q : QueueRow) (ids : List Nat)
    (action st : JSString) (c : ℚ)
    (hq : pool.verification_queue.find? (fun x => decide (x.id = q.id)) = some q)
    (hids : q.id ∈ ids) (hact : (action, st, c) ∈ actionOutcomes) :
    ((processQueueItem noFault pool q.id
        { action := JSText.text action, confidence_score := none }).1 =
        ProcessResponse.ok (js "Address verification " ++ action ++ js "ed successfully") st c ∧
      (processQueueItem noFault pool q.id
        { action := JSText.text action, confidence_score := none }).2.addresses.map AddressRow.id
        = pool.addresses.map AddressRow.id ∧
      (∀ a ∈ (processQueueItem noFault pool q.id
          { action := JSText.text action, confidence_score := none }).2.addresses,
        a.id = q.address_id → a.verification_status = st ∧ a.confidence_score = c) ∧
      (processQueueItem noFault pool q.id
        { action := JSText.text action, confidence_score := none }).2.verification_queue.map
          (fun x => (x.id, x.address_id))
        = pool.verification_queue.map (fun x => (x.id, x.address_id)) ∧
      (∀ x ∈ (processQueueItem noFault pool q.id
          { action := JSText.text action, confidence_score := none }).2.verification_queue,
        x.id = q.id → x.status = js "completed")) ∧
    ((batchProcess noFault pool
        { queue_ids := some ids, action := JSText.text action, confidence_score := none }).1 =
        BatchResponse.ok
          (natToString ids.length ++ js " addresses " ++ action ++ js "ed successfully")
          ids.length st ∧
      (batchProcess noFault pool
        { queue_ids := some ids, action := JSText.text action,
          confidence_score := none }).2.addresses.map AddressRow.id
        = pool.addresses.map AddressRow.id ∧
      (∀ a ∈ (batchProcess noFault pool
          { queue_ids := some ids, action := JSText.text action,
            confidence_score := none }).2.addresses,
        a.id = q.address_id → a.verification_status = st ∧ a.confidence_score = c) ∧
      (batchProcess noFault pool
        { queue_ids := some ids, action := JSText.text action,
          confidence_score := none }).2.verification_queue.map (fun x => (x.id, x.address_id))
        = pool.verification_queue.map (fun x => (x.id, x.address_id)) ∧
      (∀ x ∈ (batchProcess noFault pool
          { queue_ids := some ids, action := JSText.text action,
            confidence_score := none }).2.verification_queue,
        x.id = q.id → x.status = js "completed")) := by
  have hsw := switchAction_of_mem_actionOutcomes hact
  obtain ⟨rest, hf⟩ := filter_eq_cons_of_find? _ _ _ hq
  have hne : ids ≠ [] := List.ne_nil_of_mem hids
  have hqmem : q ∈ pool.verification_queue := List.mem_of_find?_eq_some hq
  constructor
  · rw [processQueueItem_found pool q.id
      { action := JSText.text action, confidence_score := none } q rest st c hf hsw]
    refine ⟨rfl, map_id_setVerification _ _ _ _, ?_, completeQueueItems_keys _ _ _, ?_⟩
    · exact setVerification_of_selected _ st c _ q.address_id
        (fun a ha => by simpa using ha)
    · intro x hx hid
      exact (completeQueueItems_of_selected _ _ _ q.id (fun y hy => by simpa using hy)
        x hx hid).1
  · rw [batchProcess_ok pool ids (JSText.text action) none st c hne hsw]
    refine ⟨rfl, map_id_setVerification _ _ _ _, ?_, completeQueueItems_keys _ _ _, ?_⟩
    · apply setVerification_of_selected _ st c _ q.address_id
      intro a ha
      rw [decide_eq_true_eq, mem_batch_addressIds]
      exact ⟨q, hqmem, hids, ha.symm⟩
    · intro x hx hid
      exact (completeQueueItems_of_selected _ _ _ q.id
        (fun y hy => by simpa [hy] using hids) x hx hid).1

/-- C16, for the first queue item of the sample state and the action
`approve`. -/
theorem verification_outcome_table_witness :
    (processQueueItem noFault samplePool 1
        { action := JSText.text (js "approve"), confidence_score := none }).1 =
      ProcessResponse.ok (js "Address verification approveed successfully") (js "verified") 95 ∧
    (batchProcess noFault samplePool
        { queue_ids := some [1, 2], action := JSText.text (js "approve"),
          confidence_score := none }).1 =
      BatchResponse.ok (js "2 addresses approveed successfully") 2 (js "verified") :=
  have h := verification_outcome_table samplePool (sampleQueueItem 1 1) [1, 2] (js "approve")
    (js "verified") 95 (by decide) (by decide) (by decide!)
  ⟨h.1.1, h.2.1⟩

/-- C17 (the claim as stated fails): `Approve` and `REJECT` equal `approve`
and `reject` up to letter case, yet both routes answer 400 and change nothing,
while the lower-case names are accepted. -/
theorem action_names_are_case_sensitive :
    toLowerCaseASCII (js "Approve") = js "approve" ∧
    toLowerCaseASCII (js "REJECT") = js "reject" ∧
    processQueueItem noFault samplePool 1
        { action := JSText.text (js "Approve"), confidence_score := none } =
      (ProcessResponse.badRequest "Invalid action. Must be approve, reject, or flag",
        samplePool) ∧
    (processQueueItem noFault samplePool 1
        { action := JSText.text (js "approve"), confidence_score := none }).1 =
      ProcessResponse.ok (js "Address verification approveed successfully") (js "verified") 95 ∧
    batchProcess noFault samplePool
        { queue_ids := some [1, 2], action := JSText.text (js "REJECT"),
          confidence_score := none } =
      (BatchResponse.badRequest "Invalid action. Must be approve, reject, or flag",
        samplePool) ∧
    (batchProcess noFault samplePool
        { queue_ids := some [1, 2], action := JSText.text (js "reject"),
          confidence_score := none }).1 =
      BatchResponse.ok (js "2 addresses rejected successfully") 2 (js "rejected") := by
  decide!

/-- C17 (amended): action names are matched exactly. Every action that is not
one of the three strings `approve`, `reject`, `flag` as written is answered
with 400 by both routes, whatever the stored state, and nothing is changed. -/
theorem action_names_matched_exactly (fault : Nat → Bool) (pool : Pool) (queueId : Nat)
    (ids : List Nat) (action : JSText) (cs : Option ℚ) (hne : ids ≠ [])
    (h : action ∉ validActions) :
    processQueueItem fault pool queueId { action := action, confidence_score := cs } =
      (ProcessResponse.badRequest "Invalid action. Must be approve, reject, or flag", pool) ∧
    batchProcess fault pool { queue_ids := some ids, action := action, confidence_score := cs } =
      (BatchResponse.badRequest "Invalid action. Must be approve, reject, or flag", pool) :=
  ⟨processQueueItem_invalid fault pool queueId _ h,
    batchProcess_invalid fault pool ids action cs hne h⟩

/-- C17 (amended), for the action `Approve`. -/
theorem action_names_matched_exactly_witness :
    processQueueItem noFault samplePool 1
        { action := JSText.text (js "Approve"), confidence_score := none } =
      (ProcessResponse.badRequest "Invalid action. Must be approve, reject, or flag",
        samplePool) ∧
    batchProcess noFault samplePool
        { queue_ids := some [1, 2], action := JSText.text (js "Approve"),
          confidence_score := none } =
      (BatchResponse.badRequest "Invalid action. Must be approve, reject, or flag",
        samplePool) :=
  action_names_matched_exactly noFault samplePool 1 [1, 2] (JSText.text (js "Approve")) none
    (by decide) (by decide)

/-- C18: for every stored state and every valid action, single-item processing
of a queue item id that no stored row has answers 404 and leaves the state, all
queue items and all addresses, as it was. -/
theorem missing_queue_item_not_found (pool : Pool) (queueId : Nat) (req : ProcessRequest)
    (hv : req.action ∈ validActions)
    (hmiss : ∀ q ∈ pool.verification_queue, q.id ≠ queueId) :
    processQueueItem noFault pool queueId req =
      (ProcessResponse.notFound "Verification queue item not found", pool) := by
  apply processQueueItem_missing pool queueId req hv
  rw [List.filter_eq_nil_iff]
  intro q hq
  simpa using hmiss q hq

/-- C18, for the queue item id 7, which the sample state does not hold. -/
theorem missing_queue_item_not_found_witness :
    processQueueItem noFault samplePool 7
        { action := JSText.text (js "flag"), confidence_score := some 40 } =
      (ProcessResponse.notFound "Verification queue item not found", samplePool) :=
  missing_queue_item_not_found samplePool 7
    { action := JSText.text (js "flag"), confidence_score := some 40 } (by decide) (by decide)

/-- C19 (evaluation at the failing inputs): after single-item `approve` without
a confidence the queue item records 0 while its address gets 95; after
single-item `reject` with the confidence 80 the queue item records 80 while its
address gets 0. The batch route records the confidence of the address on the
queue item in both cases. -/
theorem single_item_queue_confidence_differs :
    ((processQueueItem noFault samplePool 1
        { action := JSText.text (js "approve"), confidence_score := none }).2.verification_queue.map
          (fun x => (x.id, x.ai_confidence)) = [(1, 0), (2, 0)] ∧
      (processQueueItem noFault samplePool 1
        { action := JSText.text (js "approve"), confidence_score := none }).2.addresses.map
          (fun a => (a.id, a.confidence_score)) = [(1, 95), (2, 0)]) ∧
    ((processQueueItem noFault samplePool 1
        { action := JSText.text (js "reject"), confidence_score := some 80 }).2.verification_queue.map
          (fun x => (x.id, x.ai_confidence)) = [(1, 80), (2, 0)] ∧
      (processQueueItem noFault samplePool 1
        { action := JSText.text (js "reject"), confidence_score := some 80 }).2.addresses.map
          (fun a => (a.id, a.confidence_score)) = [(1, 0), (2, 0)]) ∧
    ((batchProcess noFault samplePool
        { queue_ids := some [1], action := JSText.text (js "approve"),
          confidence_score := none }).2.verification_queue.map
          (fun x => (x.id, x.ai_confidence)) = [(1, 95), (2, 0)] ∧
      (batchProcess noFault samplePool
        { queue_ids := some [1], action := JSText.text (js "approve"),
          confidence_score := none }).2.addresses.map
          (fun a => (a.id, a.confidence_score)) = [(1, 95), (2, 0)]) := by
  decide!

/-! ## Batch processing and sequential processing -/

theorem setVerification_congr (sel1 sel2 : AddressRow → Bool) (st : JSString) (c : ℚ)
    (l : List AddressRow) (h : ∀ a ∈ l, sel1 a = sel2 a) :
    setVerification sel1 st c l = setVerification sel2 st c l := by
  unfold setVerification
  apply List.map_congr_left
  intro a ha
  rw [h a ha]

theorem setVerification_none (st : JSString) (c : ℚ) (l : List AddressRow) :
    setVerification (fun _ => false) st c l = l := by
  unfold setVerification
  simp

/-- Two address updates with the same values, each selecting by id, are one
update selecting by either. -/
theorem setVerification_twice (f g : Nat → Bool) (st : JSString) (c : ℚ)
    (l : List AddressRow) :
    setVerification (fun a => g a.id) st c (setVerification (fun a => f a.id) st c l) =
      setVerification (fun a => f a.id || g a.id) st c l := by
  unfold setVerification
  rw [List.map_map]
  apply List.map_congr_left
  intro a _
  simp only [Function.comp]
  by_cases hf : f a.id = true
  · rw [if_pos hf]
    simp only [hf, Bool.true_or, if_true]
    split <;> rfl
  · have hf2 : f a.id = false := by simpa using hf
    rw [if_neg hf]
    simp only [hf2, Bool.false_or]

theorem ownerOf_completeQueueItems (selected : QueueRow → Bool) (conf : ℚ)
    (queue : List QueueRow) (queueId : Nat) :
    ownerOf (completeQueueItems selected conf queue) queueId = ownerOf queue queueId := by
  unfold ownerOf completeQueueItems
  induction queue with
  | nil => rfl
  | cons x xs ih =>
    by_cases hs : selected x = true <;> by_cases hx : x.id = queueId <;>
      simp [List.find?, hs, hx] <;> simpa using ih

/-- The effect of one single-item request on the stored rows, for a valid
action: the address read for the queue item gets the status and the
confidence, and the queue keeps its ids and address ids. -/
theorem processQueueItem_effect (pool : Pool) (queueId : Nat) (req : ProcessRequest)
    (st : JSString) (c : ℚ) (hsw : switchAction req.action req.confidence_score = some (st, c)) :
    (processQueueItem noFault pool queueId req).2.addresses =
      setVerification (fun a => decide (ownerOf pool.verification_queue queueId = some a.id))
        st c pool.addresses ∧
    ∀ k, ownerOf (processQueueItem noFault pool queueId req).2.verification_queue k =
      ownerOf pool.verification_queue k := by
  cases hf : pool.verification_queue.filter (fun q => decide (q.id = queueId)) with
  | nil =>
    rw [processQueueItem_missing pool queueId req (mem_validActions_of_switchAction hsw) hf]
    refine ⟨?_, fun _ => rfl⟩
    have hnone : ownerOf pool.verification_queue queueId = none := by
      unfold ownerOf
      rw [List.filter_eq_nil_iff] at hf
      rw [List.find?_eq_none.mpr hf]
      rfl
    rw [hnone]
    simp only [reduceCtorEq, decide_False]
    exact (setVerification_none st c pool.addresses).symm
  | cons row rest =>
    rw [processQueueItem_found pool queueId req row rest st c hf hsw]
    refine ⟨?_, fun k => ownerOf_completeQueueItems _ _ _ k⟩
    have hsome : ownerOf pool.verification_queue queueId = some row.address_id := by
      unfold ownerOf
      rw [find?_of_filter_eq_cons _ _ _ _ hf]
      rfl
    rw [hsome]
    apply setVerification_congr
    intro a _
    simp only [Option.some.injEq, decide_eq_decide]
    exact eq_comm

/-- The addresses after a run of single-item requests: every address read for
one of the listed queue items has the status and the confidence, the others are
as before. -/
theorem processSequentially_addresses (queue : List QueueRow) (req : ProcessRequest)
    (st : JSString) (c : ℚ) (hsw : switchAction req.action req.confidence_score = some (st, c))
    (ids : List Nat) :
    ∀ pool : Pool, (∀ k, ownerOf pool.verification_queue k = ownerOf queue k) →
      (processSequentially pool ids req).addresses =
        setVerification
          (fun a => ids.any (fun queueId => decide (ownerOf queue queueId = some a.id)))
          st c pool.addresses := by
  induction ids with
  | nil =>
    intro pool _
    simp only [processSequentially, List.foldl_nil, List.any_nil]
    exact (setVerification_none st c pool.addresses).symm
  | cons queueId rest ih =>
    intro pool hown
    obtain ⟨haddr, hkeep⟩ := processQueueItem_effect pool queueId req st c hsw
    have hstep : processSequentially pool (queueId :: rest) req =
        processSequentially (processQueueItem noFault pool queueId req).2 rest req := rfl
    rw [hstep, ih _ (fun k => (hkeep k).trans (hown k)), haddr, hown queueId]
    rw [setVerification_twice (fun aid => decide (ownerOf queue queueId = some aid))
      (fun aid => rest.any (fun k => decide (ownerOf queue k = some aid))) st c pool.addresses]
    apply setVerification_congr
    intro a _
    simp only [List.any_cons]

/-- With unique queue item ids, the addresses that the batch route selects are
those read one by one for the listed ids. -/
theorem batch_selection_eq (queue : List QueueRow) (ids : List Nat) (aid : Nat)
    (hkey : (queue.map QueueRow.id).Nodup) :
    (∃ q ∈ queue, q.id ∈ ids ∧ q.address_id = aid) ↔
      ids.any (fun queueId => decide (ownerOf queue queueId = some aid)) = true := by
  simp only [List.any_eq_true, decide_eq_true_eq]
  constructor
  · rintro ⟨q, hq, hid, rfl⟩
    refine ⟨q.id, hid, ?_⟩
    unfold ownerOf
    cases hfind : queue.find? (fun x => decide (x.id = q.id)) with
    | none =>
      have := List.find?_eq_none.mp hfind q hq
      simp at this
    | some q2 =>
      have h2 : q2.id = q.id := by simpa using List.find?_some hfind
      have hmem : q2 ∈ queue := List.mem_of_find?_eq_some hfind
      have : q2 = q := List.inj_on_of_nodup_map hkey hmem hq h2
      rw [this]
      rfl
  · rintro ⟨queueId, hid, hown⟩
    unfold ownerOf at hown
    cases hfind : queue.find? (fun x => decide (x.id = queueId)) with
    | none => rw [hfind] at hown; cases hown
    | some q =>
      rw [hfind] at hown
      have h2 : q.id = queueId := by simpa using List.find?_some hfind
      refine ⟨q, List.mem_of_find?_eq_some hfind, by rw [h2]; exact hid, ?_⟩
      simpa using hown

/-- C20: for every stored state whose queue item ids are unique, every list of
queue item ids and every valid action with a supplied confidence (or none),
batch processing leaves the table of addresses exactly as processing the listed
ids one after another with the single-item route does. -/
theorem batch_equals_sequential (pool : Pool) (ids : List Nat) (action : JSText)
    (cs : Option ℚ) (hv : action ∈ validActions)
    (hkey : (pool.verification_queue.map QueueRow.id).Nodup) :
    (batchProcess noFault pool
        { queue_ids := some ids, action := action, confidence_score := cs }).2.addresses =
      (processSequentially pool ids { action := action, confidence_score := cs }).addresses := by
  cases hsw : switchAction action cs with
  | none => exact absurd hv ((switchAction_eq_none_iff action cs).mp hsw)
  | some r =>
    obtain ⟨st, c⟩ := r
    rw [processSequentially_addresses pool.verification_queue
      { action := action, confidence_score := cs } st c hsw ids pool (fun _ => rfl)]
    by_cases hne : ids = []
    · subst hne
      simp only [List.any_nil]
      rw [setVerification_none]
      unfold batchProcess
      simp
    · rw [batchProcess_ok pool ids action cs st c hne hsw]
      apply setVerification_congr
      intro a _
      rw [Bool.eq_iff_iff, decide_eq_true_eq, mem_batch_addressIds,
        batch_selection_eq pool.verification_queue ids a.id hkey]

/-- C20, for five queue items and the action `reject`. -/
theorem batch_equals_sequential_witness :
    (batchProcess noFault samplePoolFive
        { queue_ids := some [11, 12, 13, 14, 15], action := JSText.text (js "reject"),
          confidence_score := none }).2.addresses =
      (processSequentially samplePoolFive [11, 12, 13, 14, 15]
        { action := JSText.text (js "reject"), confidence_score := none }).addresses :=
  batch_equals_sequential samplePoolFive [11, 12, 13, 14, 15] (JSText.text (js "reject")) none
    (by decide) (by decide)

/-! ## Consequences of the constants -/

/-- C26: the point (12.3714, -1.5197) lies in the Ouagadougou box and not in
the Ouahigouya box, the point (13.5833, -2.4167) lies in the Ouahigouya box and
not in the Ouagadougou box, and `determineCityCode` returns `OUA` for both. -/
theorem city_token_shared_by_two_cities :
    ((cityTable.getD 0 ⟨0, 0, 0, 0, []⟩).containsPoint 12.3714 (-1.5197) = true ∧
      (cityTable.getD 4 ⟨0, 0, 0, 0, []⟩).containsPoint 12.3714 (-1.5197) = false) ∧
    ((cityTable.getD 4 ⟨0, 0, 0, 0, []⟩).containsPoint 13.5833 (-2.4167) = true ∧
      (cityTable.getD 0 ⟨0, 0, 0, 0, []⟩).containsPoint 13.5833 (-2.4167) = false) ∧
    determineCityCode 12.3714 (-1.5197) = js "OUA" ∧
    determineCityCode 13.5833 (-2.4167) = js "OUA" ∧
    determineCityCode 12.3714 (-1.5197) = determineCityCode 13.5833 (-2.4167) := by
  decide!

theorem calculateDistanceScore_le_of_far (d : ℚ) (h : 30 < d) :
    calculateDistanceScore d ≤ 0.4 := by
  unfold calculateDistanceScore
  split_ifs <;> (try norm_num) <;> linarith

theorem scoreCandidate_far (toLowerCase : JSString → JSString)
    (placeName category : JSText) (address : NearbyAddress)
    (h : 30 < address.distance_meters) :
    (scoreCandidate toLowerCase placeName category address).duplicate_probability ≤ 0.7 ∧
    (scoreCandidate toLowerCase placeName category address).is_likely_duplicate = false := by
  have hd := calculateDistanceScore_le_of_far address.distance_meters h
  have hn := calculateNameSimilarity_unit_interval toLowerCase placeName address.place_name
  have hp : (scoreCandidate toLowerCase placeName category address).duplicate_probability
      ≤ 0.7 := by
    simp only [scoreCandidate]
    split_ifs <;> norm_num at hd ⊢ <;> linarith [hn.2]
  refine ⟨hp, ?_⟩
  have e : (scoreCandidate toLowerCase placeName category address).is_likely_duplicate
      = decide ((scoreCandidate toLowerCase placeName category address).duplicate_probability
          > 0.7) := rfl
  rw [e, decide_eq_false_iff_not]
  exact not_lt.mpr hp

/-- C24: when every candidate of the proximity query is farther than 30 from
the submission, then, whatever the place names and the categories, every
composite score is at most 0.7, no candidate has `is_likely_duplicate`, and the
list of likely duplicates, which alone makes creation answer 409, is empty. -/
theorem far_candidates_never_likely (toLowerCase : JSString → JSString)
    (placeName category : JSText) (nearbyAddresses : List NearbyAddress)
    (h : ∀ a ∈ nearbyAddresses, 30 < a.distance_meters) :
    (∀ a ∈ nearbyAddresses,
      (scoreCandidate toLowerCase placeName category a).duplicate_probability ≤ 0.7 ∧
      (scoreCandidate toLowerCase placeName category a).is_likely_duplicate = false) ∧
    (∀ d ∈ rankCandidates toLowerCase placeName category nearbyAddresses,
      d.duplicate_probability ≤ 0.7 ∧ d.is_likely_duplicate = false) ∧
    (rankCandidates toLowerCase placeName category nearbyAddresses).filter
      (fun d => d.is_likely_duplicate) = [] := by
  have hall : ∀ d ∈ rankCandidates toLowerCase placeName category nearbyAddresses,
      d.duplicate_probability ≤ 0.7 ∧ d.is_likely_duplicate = false := by
    intro d hd
    obtain ⟨a, ha, rfl⟩ := List.mem_map.mp
      ((rankCandidates_perm toLowerCase placeName category nearbyAddresses).mem_iff.mp hd)
    exact scoreCandidate_far toLowerCase placeName category a (h a ha)
  refine ⟨fun a ha => scoreCandidate_far toLowerCase placeName category a (h a ha), hall, ?_⟩
  rw [List.filter_eq_nil_iff]
  intro d hd
  rw [(hall d hd).2]
  exact Bool.false_ne_true

/-- C24, for a stored address 40 m away with the name and the category of the
submission. -/
theorem far_candidates_never_likely_witness :
    (rankCandidates toLowerCaseASCII (JSText.text (js "Shop A")) (JSText.text (js "Commerce"))
        [{ id := 1, code := js "BF-OTH-7860-AB12", place_name := JSText.text (js "Shop A"),
           latitude := 12.30, longitude := -1.40, category := JSText.text (js "Commerce"),
           verification_status := js "pending", distance_meters := 40 }]).filter
      (fun d => d.is_likely_duplicate) = [] :=
  (far_candidates_never_likely toLowerCaseASCII (JSText.text (js "Shop A"))
    (JSText.text (js "Commerce"))
    [{ id := 1, code := js "BF-OTH-7860-AB12", place_name := JSText.text (js "Shop A"),
       latitude := 12.30, longitude := -1.40, category := JSText.text (js "Commerce"),
       verification_status := js "pending", distance_meters := 40 }]
    (by
      intro a ha
      rw [List.mem_singleton.mp ha]
      norm_num)).2.2

/-! ## Further properties of the verification routes -/

theorem completeQueueItems_of_none_selected (selected : QueueRow → Bool) (conf : ℚ)
    (queue : List QueueRow) (h : ∀ q ∈ queue, selected q = false) :
    completeQueueItems selected conf queue = queue := by
  unfold completeQueueItems
  conv_rhs => rw [← List.map_id queue]
  apply List.map_congr_left
  intro q hq
  simp [h q hq]

theorem pool_with_same_tables (pool : Pool) :
    { pool with verification_queue := pool.verification_queue, addresses := pool.addresses }
      = pool := by
  cases pool
  rfl

/-- C25: for every valid action and every non-empty list of ids none of which
is the id of a stored queue item, batch processing answers 200 with
`processed_count` equal to the length of the list and leaves the stored state
as it was, whereas single-item processing of each of these ids answers 404. -/
theorem batch_ignores_missing_items (pool : Pool) (ids : List Nat) (action : JSText)
    (cs : Option ℚ) (hne : ids ≠ []) (hv : action ∈ validActions)
    (hmiss : ∀ q ∈ pool.verification_queue, q.id ∉ ids) :
    (∃ st c, switchAction action cs = some (st, c) ∧
      batchProcess noFault pool
          { queue_ids := some ids, action := action, confidence_score := cs } =
        (BatchResponse.ok
          (natToString ids.length ++ js " addresses " ++ actionText action ++
            js "ed successfully") ids.length st, pool)) ∧
    ∀ queueId ∈ ids,
      processQueueItem noFault pool queueId { action := action, confidence_score := cs } =
        (ProcessResponse.notFound "Verification queue item not found", pool) := by
  constructor
  · cases hsw : switchAction action cs with
    | none => exact absurd hv ((switchAction_eq_none_iff action cs).mp hsw)
    | some r =>
      obtain ⟨st, c⟩ := r
      refine ⟨st, c, rfl, ?_⟩
      rw [batchProcess_ok pool ids action cs st c hne hsw]
      have hq : completeQueueItems (fun q => decide (q.id ∈ ids)) c pool.verification_queue
          = pool.verification_queue :=
        completeQueueItems_of_none_selected _ _ _ (fun q hq => by simpa using hmiss q hq)
      have hf : pool.verification_queue.filter (fun q => decide (q.id ∈ ids)) = [] := by
        rw [List.filter_eq_nil_iff]
        intro q hq
        simpa using hmiss q hq
      rw [hq, hf]
      simp only [List.map_nil, List.not_mem_nil, decide_False]
      rw [setVerification_none, pool_with_same_tables]
  · intro queueId hid
    apply processQueueItem_missing pool queueId _ hv
    rw [List.filter_eq_nil_iff]
    intro q hq
    simp only [decide_eq_true_eq]
    intro e
    exact hmiss q hq (e ▸ hid)

/-- C25, for the ids 7 and 8, which the sample state does not hold. -/
theorem batch_ignores_missing_items_witness :
    ∃ st c, switchAction (JSText.text (js "approve")) none = some (st, c) ∧
      batchProcess noFault samplePool
          { queue_ids := some [7, 8], action := JSText.text (js "approve"),
            confidence_score := none } =
        (BatchResponse.ok
          (natToString [7, 8].length ++ js " addresses " ++
            actionText (JSText.text (js "approve")) ++ js "ed successfully")
          [7, 8].length st, samplePool) :=
  (batch_ignores_missing_items samplePool [7, 8] (JSText.text (js "approve")) none
    (by decide) (by decide) (by decide)).1

theorem orDefault_range (cs : Option ℚ) (d : ℚ) (hd : 0 ≤ d ∧ d ≤ 100)
    (hcs : ∀ q, cs = some q → 0 ≤ q ∧ q ≤ 100) :
    0 ≤ orDefault cs d ∧ orDefault cs d ≤ 100 := by
  cases cs with
  | none => exact hd
  | some q =>
    simp only [orDefault]
    split_ifs
    · exact hd
    · exact hcs q rfl

theorem switchAction_range (action : JSText) (cs : Option ℚ) (st : JSString) (c : ℚ)
    (hsw : switchAction action cs = some (st, c))
    (hcs : ∀ q, cs = some q → 0 ≤ q ∧ q ≤ 100) : 0 ≤ c ∧ c ≤ 100 := by
  unfold switchAction at hsw
  split_ifs at hsw
  · simp only [Option.some.injEq, Prod.mk.injEq] at hsw
    rw [← hsw.2]
    exact orDefault_range cs 95 (by norm_num) hcs
  · simp only [Option.some.injEq, Prod.mk.injEq] at hsw
    rw [← hsw.2]
    norm_num
  · simp only [Option.some.injEq, Prod.mk.injEq] at hsw
    rw [← hsw.2]
    exact orDefault_range cs 25 (by norm_num) hcs

/-- Whatever store operation fails, a single-item request leaves the stored
state as it was or applies both updates with the outcome of the `switch`. -/
theorem processQueueItem_state (fault : Nat → Bool) (pool : Pool) (queueId : Nat)
    (req : ProcessRequest) :
    (processQueueItem fault pool queueId req).2 = pool ∨
    ∃ (selected : AddressRow → Bool) (st : JSString) (c : ℚ),
      switchAction req.action req.confidence_score = some (st, c) ∧
      (processQueueItem fault pool queueId req).2.addresses =
        setVerification selected st c pool.addresses := by
  by_cases hv : req.action ∈ validActions
  swap
  · rw [processQueueItem_invalid fault pool queueId req hv]; exact Or.inl rfl
  unfold processQueueItem
  rw [if_neg (not_not.mpr hv)]
  by_cases h0 : fault 0 = true
  · rw [if_pos h0]; exact Or.inl rfl
  rw [if_neg h0]
  by_cases h1 : fault 1 = true
  · rw [if_pos h1]; exact Or.inl rfl
  rw [if_neg h1]
  cases hf : pool.verification_queue.filter (fun q => decide (q.id = queueId)) with
  | nil => exact Or.inl rfl
  | cons row rest =>
    simp only
    by_cases h2 : fault 2 = true
    · rw [if_pos h2]; exact Or.inl rfl
    rw [if_neg h2]
    cases hsw : switchAction req.action req.confidence_score with
    | none => exact Or.inl rfl
    | some r =>
      obtain ⟨st, c⟩ := r
      simp only
      by_cases h3 : fault 3 = true
      · rw [if_pos h3]; exact Or.inl rfl
      rw [if_neg h3]
      by_cases h4 : fault 4 = true
      · rw [if_pos h4]; exact Or.inl rfl
      rw [if_neg h4]
      exact Or.inr ⟨_, st, c, rfl, rfl⟩

/-- Whatever store operation fails, a batch request leaves the stored state as
it was or applies both updates with the outcome of the `switch`. -/
theorem batchProcess_state (fault : Nat → Bool) (pool : Pool) (req : BatchRequest) :
    (batchProcess fault pool req).2 = pool ∨
    ∃ (selected : AddressRow → Bool) (st : JSString) (c : ℚ),
      switchAction req.action req.confidence_score = some (st, c) ∧
      (batchProcess fault pool req).2.addresses =
        setVerification selected st c pool.addresses := by
  unfold batchProcess
  cases hq : req.queue_ids with
  | none => exact Or.inl rfl
  | some ids =>
    simp only
    by_cases hl : ids.length = 0
    · rw [if_pos hl]; exact Or.inl rfl
    rw [if_neg hl]
    by_cases hv : req.action ∉ validActions
    · rw [if_pos hv]; exact Or.inl rfl
    rw [if_neg hv]
    by_cases h0 : fault 0 = true
    · rw [if_pos h0]; exact Or.inl rfl
    rw [if_neg h0]
    cases hsw : switchAction req.action req.confidence_score with
    | none => exact Or.inl rfl
    | some r =>
      obtain ⟨st, c⟩ := r
      simp only
      by_cases h1 : fault 1 = true
      · rw [if_pos h1]; exact Or.inl rfl
      rw [if_neg h1]
      by_cases h2 : fault 2 = true
      · rw [if_pos h2]; exact Or.inl rfl
      rw [if_neg h2]
      by_cases h3 : fault 3 = true
      · rw [if_pos h3]; exact Or.inl rfl
      rw [if_neg h3]
      by_cases h4 : fault 4 = true
      · rw [if_pos h4]; exact Or.inl rfl
      rw [if_neg h4]
      exact Or.inr ⟨_, st, c, rfl, rfl⟩

theorem setVerification_range (selected : AddressRow → Bool) (st : JSString) (c : ℚ)
    (l : List AddressRow) (hc : 0 ≤ c ∧ c ≤ 100)
    (hl : ∀ a ∈ l, 0 ≤ a.confidence_score ∧ a.confidence_score ≤ 100) :
    ∀ a ∈ setVerification selected st c l,
      0 ≤ a.confidence_score ∧ a.confidence_score ≤ 100 := by
  intro a ha
  unfold setVerification at ha
  obtain ⟨b, hb, rfl⟩ := List.mem_map.mp ha
  split_ifs
  · exact hc
  · exact hl b hb

/-- C22 (the claim as stated fails): in the sample state every confidence score
is 0; `approve` with the supplied confidence 150 is accepted by the single-item
route and by the batch route, and both leave address 1 with the confidence
score 150. -/
theorem confidence_score_leaves_range :
    (∀ a ∈ samplePool.addresses, 0 ≤ a.confidence_score ∧ a.confidence_score ≤ 100) ∧
    (processQueueItem noFault samplePool 1
        { action := JSText.text (js "approve"), confidence_score := some 150 }).1 =
      ProcessResponse.ok (js "Address verification approveed successfully") (js "verified")
        150 ∧
    (processQueueItem noFault samplePool 1
        { action := JSText.text (js "approve"), confidence_score := some 150 }).2.addresses.map
          (fun a => (a.id, a.confidence_score)) = [(1, 150), (2, 0)] ∧
    (batchProcess noFault samplePool
        { queue_ids := some [1], action := JSText.text (js "approve"),
          confidence_score := some 150 }).1 =
      BatchResponse.ok (js "1 addresses approveed successfully") 1 (js "verified") ∧
    (batchProcess noFault samplePool
        { queue_ids := some [1], action := JSText.text (js "approve"),
          confidence_score := some 150 }).2.addresses.map
          (fun a => (a.id, a.confidence_score)) = [(1, 150), (2, 0)] := by
  decide!

/-- C22 (amended): when the supplied confidence, if there is one, lies between
0 and 100, a single-item or batch request (accepted or not, with or without a
failing store operation) keeps every address confidence score between 0 and
100. -/
theorem confidence_range_preserved (fault : Nat → Bool) (pool : Pool) (queueId : Nat)
    (queueIds : Option (List Nat)) (action : JSText) (cs : Option ℚ)
    (hcs : ∀ q, cs = some q → 0 ≤ q ∧ q ≤ 100)
    (hinv : ∀ a ∈ pool.addresses, 0 ≤ a.confidence_score ∧ a.confidence_score ≤ 100) :
    (∀ a ∈ (processQueueItem fault pool queueId
          { action := action, confidence_score := cs }).2.addresses,
      0 ≤ a.confidence_score ∧ a.confidence_score ≤ 100) ∧
    (∀ a ∈ (batchProcess fault pool
          { queue_ids := queueIds, action := action, confidence_score := cs }).2.addresses,
      0 ≤ a.confidence_score ∧ a.confidence_score ≤ 100) := by
  constructor
  · rcases processQueueItem_state fault pool queueId
      { action := action, confidence_score := cs } with h | ⟨sel, st, c, hsw, h⟩
    · rw [h]; exact hinv
    · rw [h]
      exact setVerification_range sel st c _ (switchAction_range action cs st c hsw hcs) hinv
  · rcases batchProcess_state fault pool
      { queue_ids := queueIds, action := action, confidence_score := cs } with
      h | ⟨sel, st, c, hsw, h⟩
    · rw [h]; exact hinv
    · rw [h]
      exact setVerification_range sel st c _ (switchAction_range action cs st c hsw hcs) hinv

/-- C22 (amended), for `flag` with the supplied confidence 40 on the sample
state. -/
theorem confidence_range_preserved_witness :
    (∀ a ∈ (processQueueItem noFault samplePool 1
          { action := JSText.text (js "flag"), confidence_score := some 40 }).2.addresses,
      0 ≤ a.confidence_score ∧ a.confidence_score ≤ 100) ∧
    (∀ a ∈ (batchProcess noFault samplePool
          { queue_ids := some [1, 2], action := JSText.text (js "flag"),
            confidence_score := some 40 }).2.addresses,
      0 ≤ a.confidence_score ∧ a.confidence_score ≤ 100) :=
  confidence_range_preserved noFault samplePool 1 (some [1, 2]) (JSText.text (js "flag"))
    (some 40)
    (by
      intro q hq
      rw [← Option.some.inj hq]
      norm_num)
    (by decide!)

/-! ## The grid token -/

theorem natToString_five (n : Nat) (h1 : 10000 ≤ n) (h2 : n < 100000) :
    natToString n =
      [48 + n / 10000, 48 + n / 1000 % 10, 48 + n / 100 % 10, 48 + n / 10 % 10, 48 + n % 10] := by
  unfold natToString
  obtain ⟨k, hk⟩ : ∃ k, n + 1 = k + 5 := ⟨n - 4, by omega⟩
  rw [hk]
  have a1 : ¬ n < 10 := by omega
  have a2 : ¬ n / 10 < 10 := by omega
  have a3 : ¬ n / 10 / 10 < 10 := by omega
  have a4 : ¬ n / 10 / 10 / 10 < 10 := by omega
  have a5 : n / 10 / 10 / 10 / 10 < 10 := by omega
  simp only [natToDigits, a1, a2, a3, a4, a5, if_true, if_false, List.cons.injEq, and_true]
  omega

theorem natToString_four (n : Nat) (h1 : 1000 ≤ n) (h2 : n < 10000) :
    natToString n = [48 + n / 1000, 48 + n / 100 % 10, 48 + n / 10 % 10, 48 + n % 10] := by
  unfold natToString
  obtain ⟨k, hk⟩ : ∃ k, n + 1 = k + 4 := ⟨n - 3, by omega⟩
  rw [hk]
  have a1 : ¬ n < 10 := by omega
  have a2 : ¬ n / 10 < 10 := by omega
  have a3 : ¬ n / 10 / 10 < 10 := by omega
  have a4 : n / 10 / 10 / 10 < 10 := by omega
  simp only [natToDigits, a1, a2, a3, a4, if_true, if_false, List.cons.injEq, and_true]
  omega

theorem intToString_natCast (n : Nat) : intToString (n : Int) = natToString n := by
  unfold intToString
  rw [if_neg (by omega)]
  simp

theorem floor_scaled_eq_natCast (x lo hi : ℚ) (a b : Nat) (h1 : lo ≤ x) (h2 : x ≤ hi)
    (ha : (a : ℚ) ≤ (lo + 180) * 100) (hb : (hi + 180) * 100 < (b : ℚ) + 1) :
    ∃ n : Nat, Int.floor ((x + 180) * 100) = (n : Int) ∧ a ≤ n ∧ n ≤ b := by
  have hlow : (a : ℚ) ≤ (x + 180) * 100 := by linarith
  have hhigh : (x + 180) * 100 < (b : ℚ) + 1 := by linarith
  have hf1 : (a : Int) ≤ Int.floor ((x + 180) * 100) := by
    apply Int.le_floor.mpr
    exact_mod_cast hlow
  have hf2 : Int.floor ((x + 180) * 100) < (b : Int) + 1 := by
    apply Int.floor_lt.mpr
    exact_mod_cast hhigh
  refine ⟨(Int.floor ((x + 180) * 100)).toNat, ?_, ?_, ?_⟩
  · rw [Int.toNat_of_nonneg]; omega
  · omega
  · omega

theorem sliceLast_append_five (a b : JSString) (hb : b.length = 5) :
    sliceLast (a ++ b) 4 = b.drop 1 := by
  unfold sliceLast
  have e : (a ++ b).length - 4 = a.length + 1 := by
    rw [List.length_append, hb]
    omega
  rw [e, List.drop_append]

/-- For a longitude accepted by the creation route the grid token is the text of
the last four digits of the longitude grid, whatever the latitude. -/
theorem gridCode_eq (lat lon : ℚ) (hlon : -5.6 ≤ lon ∧ lon ≤ 2.5) :
    gridCode lat lon = natToString ((Int.floor ((lon + 180) * 100) % 10000).toNat) ∧
    (gridCode lat lon).length = 4 ∧ (gridCode lat lon).all isDigit09 = true := by
  obtain ⟨n, hn, h1, h2⟩ := floor_scaled_eq_natCast lon (-5.6) 2.5 17440 18250 hlon.1 hlon.2
    (by norm_num) (by norm_num)
  have hfive := natToString_five n (by omega) (by omega)
  have hmod : (((n : Int) % 10000).toNat) = n % 10000 := by omega
  have hfour := natToString_four (n % 10000) (by omega) (by omega)
  have hg : gridCode lat lon =
      [48 + n / 1000 % 10, 48 + n / 100 % 10, 48 + n / 10 % 10, 48 + n % 10] := by
    unfold gridCode
    rw [hn, intToString_natCast, sliceLast_append_five _ _ (by rw [hfive]; rfl), hfive]
    rfl
  have hd : ∀ k : Nat, k < 10 → isDigit09 (48 + k) = true := by
    intro k hk
    simp only [isDigit09, Bool.and_eq_true, decide_eq_true_eq]
    omega
  refine ⟨?_, by rw [hg]; rfl, ?_⟩
  · rw [hg, hn, hmod, hfour]
    simp only [List.cons.injEq, and_true]
    omega
  · rw [hg]
    simp only [List.all_cons, List.all_nil, Bool.and_true, Bool.and_eq_true]
    exact ⟨hd _ (Nat.mod_lt _ (by norm_num)), hd _ (Nat.mod_lt _ (by norm_num)),
      hd _ (Nat.mod_lt _ (by norm_num)), hd _ (Nat.mod_lt _ (by norm_num))⟩

/-- C23: for a longitude accepted by the creation route (and any latitude, the
accepted ones included), the grid token in the generated code is the 4-digit
decimal text of floor((lon + 180) * 100) mod 10000; it is the same for every
latitude, so two valid points with the same longitude get the same grid
token. -/
theorem grid_token_from_longitude (lat lon : ℚ) (placeName : JSText) (rnd : JSString)
    (hlon : -5.6 ≤ lon ∧ lon ≤ 2.5) :
    generateAddressCode lat lon placeName rnd =
      js "BF-" ++ determineCityCode lat lon ++ js "-" ++ gridCode lat lon ++ js "-" ++
        toUpperCase (substring rnd 2 6) ∧
    gridCode lat lon = natToString ((Int.floor ((lon + 180) * 100) % 10000).toNat) ∧
    (gridCode lat lon).length = 4 ∧ (gridCode lat lon).all isDigit09 = true ∧
    ∀ lat2 : ℚ, gridCode lat2 lon = gridCode lat lon := by
  obtain ⟨h1, h2, h3⟩ := gridCode_eq lat lon hlon
  refine ⟨rfl, h1, h2, h3, ?_⟩
  intro lat2
  rw [h1, (gridCode_eq lat2 lon hlon).1]

/-- C23, for the points (12.3714, -1.5197) and (14.9, -1.5197). -/
theorem grid_token_from_longitude_witness :
    gridCode 12.3714 (-1.5197) = js "7848" ∧ gridCode 14.9 (-1.5197) = js "7848" :=
  have h := grid_token_from_longitude 12.3714 (-1.5197) (JSText.text (js "Kiosk"))
    (js "0.ab12cd") (by norm_num)
  have e : natToString ((Int.floor (((-1.5197 : ℚ) + 180) * 100) % 10000).toNat) = js "7848" := by
    decide!
  ⟨h.2.1.trans e, (h.2.2.2.2 14.9).trans (h.2.1.trans e)⟩

/-! ## Atomicity of the verification routes -/

/-- On a connection without open transaction, the statements of the
single-item route have the response and the final rows of `processQueueItem`,
and they leave no transaction open. -/
theorem processQueueItemStatements_idle (fault : Nat → Bool) (pool : Pool) (queueId : Nat)
    (req : ProcessRequest) :
    processQueueItemStatements fault (Session.idle pool) queueId req =
      ((processQueueItem fault pool queueId req).1,
        Session.idle (processQueueItem fault pool queueId req).2) := by
  unfold processQueueItemStatements processQueueItem
  by_cases hv : req.action ∈ validActions
  swap
  · simp [hv]
  cases h0 : fault 0
  swap
  · simp [hv, h0, runQuery, Session.idle, Session.rollback, Session.persisted]
  cases h1 : fault 1
  swap
  · simp [hv, h0, h1, runQuery, Session.idle, Session.rollback, Session.persisted,
      Session.beginTransaction]
  cases hf : pool.verification_queue.filter (fun q => decide (q.id = queueId)) with
  | nil =>
    simp [hv, h0, h1, hf, runQuery, Session.idle, Session.rollback, Session.persisted,
      Session.beginTransaction]
  | cons row rest =>
    cases h2 : fault 2
    swap
    · simp [hv, h0, h1, h2, hf, runQuery, Session.idle, Session.rollback, Session.persisted,
        Session.beginTransaction]
    cases hsw : switchAction req.action req.confidence_score with
    | none =>
      simp [hv, h0, h1, h2, hf, hsw, runQuery, Session.idle, Session.rollback,
        Session.persisted, Session.beginTransaction, Session.update]
    | some r =>
      obtain ⟨st, c⟩ := r
      cases h3 : fault 3
      swap
      · simp [hv, h0, h1, h2, h3, hf, hsw, runQuery, Session.idle, Session.rollback,
          Session.persisted, Session.beginTransaction, Session.update]
      cases h4 : fault 4
      swap
      · simp [hv, h0, h1, h2, h3, h4, hf, hsw, runQuery, Session.idle, Session.rollback,
          Session.persisted, Session.beginTransaction, Session.update]
      simp [hv, h0, h1, h2, h3, h4, hf, hsw, runQuery, Session.idle, Session.commit,
        Session.beginTransaction, Session.update]

/-- On a connection without open transaction, the statements of the batch route
have the response and the final rows of `batchProcess`, and they leave no
transaction open. -/
theorem batchProcessStatements_idle (fault : Nat → Bool) (pool : Pool) (req : BatchRequest) :
    batchProcessStatements fault (Session.idle pool) req =
      ((batchProcess fault pool req).1, Session.idle (batchProcess fault pool req).2) := by
  unfold batchProcessStatements batchProcess
  cases hq : req.queue_ids with
  | none => rfl
  | some ids =>
    by_cases hl : ids.length = 0
    · simp [hl]
    by_cases hv : req.action ∈ validActions
    swap
    · simp [hl, hv]
    cases h0 : fault 0
    swap
    · simp [hl, hv, h0, runQuery, Session.idle, Session.rollback, Session.persisted]
    cases hsw : switchAction req.action req.confidence_score with
    | none =>
      simp [hl, hv, h0, hsw, runQuery, Session.idle, Session.rollback, Session.persisted,
        Session.beginTransaction]
    | some r =>
      obtain ⟨st, c⟩ := r
      cases h1 : fault 1
      swap
      · simp [hl, hv, h0, h1, hsw, runQuery, Session.idle, Session.rollback,
          Session.persisted, Session.beginTransaction]
      cases h2 : fault 2
      swap
      · simp [hl, hv, h0, h1, h2, hsw, runQuery, Session.idle, Session.rollback,
          Session.persisted, Session.beginTransaction, Session.update]
      cases h3 : fault 3
      swap
      · simp [hl, hv, h0, h1, h2, h3, hsw, runQuery, Session.idle, Session.rollback,
          Session.persisted, Session.beginTransaction, Session.update]
      cases h4 : fault 4
      swap
      · simp [hl, hv, h0, h1, h2, h3, h4, hsw, runQuery, Session.idle, Session.rollback,
          Session.persisted, Session.beginTransaction, Session.update]
      simp [hl, hv, h0, h1, h2, h3, h4, hsw, runQuery, Session.idle, Session.commit,
        Session.beginTransaction, Session.update]

/-- With a valid action and a stored queue item, either one of the five store
operations fails and the single-item route answers 500 with the rows as they
were, or none fails and both updates are applied. -/
theorem processQueueItem_fault_cases (fault : Nat → Bool) (pool : Pool) (queueId : Nat)
    (req : ProcessRequest) (row : QueueRow) (rest : List QueueRow) (st : JSString) (c : ℚ)
    (hf : pool.verification_queue.filter (fun q => decide (q.id = queueId)) = row :: rest)
    (hsw : switchAction req.action req.confidence_score = some (st, c)) :
    ((∃ k, k ≤ 4 ∧ fault k = true) ∧
      processQueueItem fault pool queueId req =
        (ProcessResponse.serverError "Internal server error", pool)) ∨
    ((∀ k, k ≤ 4 → fault k = false) ∧
      processQueueItem fault pool queueId req =
        (ProcessResponse.ok
          (js "Address verification " ++ actionText req.action ++ js "ed successfully") st c,
         { pool with
           verification_queue := completeQueueItems (fun q => decide (q.id = queueId))
             (orDefault req.confidence_score 0) pool.verification_queue,
           addresses := setVerification (fun a => decide (a.id = row.address_id)) st c
             pool.addresses })) := by
  have hv := mem_validActions_of_switchAction hsw
  unfold processQueueItem
  cases h0 : fault 0
  swap
  · exact Or.inl ⟨⟨0, by omega, h0⟩, by simp [hv]⟩
  cases h1 : fault 1
  swap
  · exact Or.inl ⟨⟨1, by omega, h1⟩, by simp [hv]⟩
  cases h2 : fault 2
  swap
  · exact Or.inl ⟨⟨2, by omega, h2⟩, by simp [hv, hf]⟩
  cases h3 : fault 3
  swap
  · exact Or.inl ⟨⟨3, by omega, h3⟩, by simp [hv, hf, hsw]⟩
  cases h4 : fault 4
  swap
  · exact Or.inl ⟨⟨4, by omega, h4⟩, by simp [hv, hf, hsw]⟩
  refine Or.inr ⟨?_, by simp [hv, hf, hsw]⟩
  intro k hk
  interval_cases k <;> assumption

/-- With a valid action and a non-empty id list, either one of the five store
operations fails and the batch route answers 500 with the rows as they were, or
none fails and both updates are applied. -/
theorem batchProcess_fault_cases (fault : Nat → Bool) (pool : Pool) (ids : List Nat)
    (action : JSText) (cs : Option ℚ) (st : JSString) (c : ℚ) (hne : ids ≠ [])
    (hsw : switchAction action cs = some (st, c)) :
    ((∃ k, k ≤ 4 ∧ fault k = true) ∧
      batchProcess fault pool { queue_ids := some ids, action := action, confidence_score := cs }
        = (BatchResponse.serverError "Internal server error", pool)) ∨
    ((∀ k, k ≤ 4 → fault k = false) ∧
      batchProcess fault pool { queue_ids := some ids, action := action, confidence_score := cs }
        = (BatchResponse.ok
            (natToString ids.length ++ js " addresses " ++ actionText action ++
              js "ed successfully") ids.length st,
           { pool with
             verification_queue := completeQueueItems (fun q => decide (q.id ∈ ids)) c
               pool.verification_queue,
             addresses := setVerification
               (fun a => decide (a.id ∈
                 ((completeQueueItems (fun q => decide (q.id ∈ ids)) c
                   pool.verification_queue).filter (fun q => decide (q.id ∈ ids))).map
                     (fun row => row.address_id)))
               st c pool.addresses })) := by
  have hv := mem_validActions_of_switchAction hsw
  have hl : ¬ ids.length = 0 := by simpa using hne
  unfold batchProcess
  cases h0 : fault 0
  swap
  · exact Or.inl ⟨⟨0, by omega, h0⟩, by simp [hv, hl]⟩
  cases h1 : fault 1
  swap
  · exact Or.inl ⟨⟨1, by omega, h1⟩, by simp [hv, hl, hsw]⟩
  cases h2 : fault 2
  swap
  · exact Or.inl ⟨⟨2, by omega, h2⟩, by simp [hv, hl, hsw]⟩
  cases h3 : fault 3
  swap
  · exact Or.inl ⟨⟨3, by omega, h3⟩, by simp [hv, hl, hsw]⟩
  cases h4 : fault 4
  swap
  · exact Or.inl ⟨⟨4, by omega, h4⟩, by simp [hv, hl, hsw]⟩
  refine Or.inr ⟨?_, by simp [hv, hl, hsw]⟩
  intro k hk
  interval_cases k <;> assumption

/-- C21: for a valid action, a stored queue item and a non-empty id list, on a
connection with no open transaction: if any of the store operations from
`BEGIN` to `COMMIT` fails, the single-item route (and the batch route) answers
500, the persisted rows are those before the request and no transaction stays
open; if none fails, the answer is 200 and the queue update and the address
update are both persisted. -/
theorem verification_is_atomic (fault : Nat → Bool) (pool : Pool) (queueId : Nat)
    (ids : List Nat) (action : JSText) (cs : Option ℚ) (row : QueueRow) (rest : List QueueRow)
    (hv : action ∈ validActions)
    (hf : pool.verification_queue.filter (fun q => decide (q.id = queueId)) = row :: rest)
    (hne : ids ≠ []) :
    (((∃ k, k ≤ 4 ∧ fault k = true) ∧
        processQueueItemStatements fault (Session.idle pool) queueId
            { action := action, confidence_score := cs } =
          (ProcessResponse.serverError "Internal server error", Session.idle pool)) ∨
      ((∀ k, k ≤ 4 → fault k = false) ∧
        ∃ st c, switchAction action cs = some (st, c) ∧
          processQueueItemStatements fault (Session.idle pool) queueId
              { action := action, confidence_score := cs } =
            (ProcessResponse.ok
              (js "Address verification " ++ actionText action ++ js "ed successfully") st c,
             Session.idle
               { pool with
                 verification_queue := completeQueueItems (fun q => decide (q.id = queueId))
                   (orDefault cs 0) pool.verification_queue,
                 addresses := setVerification (fun a => decide (a.id = row.address_id)) st c
                   pool.addresses }))) ∧
    (((∃ k, k ≤ 4 ∧ fault k = true) ∧
        batchProcessStatements fault (Session.idle pool)
            { queue_ids := some ids, action := action, confidence_score := cs } =
          (BatchResponse.serverError "Internal server error", Session.idle pool)) ∨
      ((∀ k, k ≤ 4 → fault k = false) ∧
        ∃ st c, switchAction action cs = some (st, c) ∧
          batchProcessStatements fault (Session.idle pool)
              { queue_ids := some ids, action := action, confidence_score := cs } =
            (BatchResponse.ok
              (natToString ids.length ++ js " addresses " ++ actionText action ++
                js "ed successfully") ids.length st,
             Session.idle
               { pool with
                 verification_queue := completeQueueItems (fun q => decide (q.id ∈ ids)) c
                   pool.verification_queue,
                 addresses := setVerification
                   (fun a => decide (a.id ∈
                     ((completeQueueItems (fun q => decide (q.id ∈ ids)) c
                       pool.verification_queue).filter (fun q => decide (q.id ∈ ids))).map
                         (fun row => row.address_id)))
                   st c pool.addresses }))) := by
  cases hsw : switchAction action cs with
  | none => exact absurd hv ((switchAction_eq_none_iff action cs).mp hsw)
  | some r =>
    obtain ⟨st, c⟩ := r
    constructor
    · rw [processQueueItemStatements_idle]
      rcases processQueueItem_fault_cases fault pool queueId
        { action := action, confidence_score := cs } row rest st c hf hsw with h | h
      · exact Or.inl ⟨h.1, by rw [h.2]⟩
      · exact Or.inr ⟨h.1, st, c, rfl, by rw [h.2]⟩
    · rw [batchProcessStatements_idle]
      rcases batchProcess_fault_cases fault pool ids action cs st c hne hsw with h | h
      · exact Or.inl ⟨h.1, by rw [h.2]⟩
      · exact Or.inr ⟨h.1, st, c, rfl, by rw [h.2]⟩

/-- C21, on the sample state, when the address `UPDATE` (store operation 3)
fails after the queue `UPDATE` has run: both routes answer 500 and the rows are
those of before the request. -/
theorem verification_is_atomic_witness :
    processQueueItemStatements (fun k => decide (k = 3)) (Session.idle samplePool) 1
        { action := JSText.text (js "approve"), confidence_score := none } =
      (ProcessResponse.serverError "Internal server error", Session.idle samplePool) ∧
    batchProcessStatements (fun k => decide (k = 3)) (Session.idle samplePool)
        { queue_ids := some [1, 2], action := JSText.text (js "approve"),
          confidence_score := none } =
      (BatchResponse.serverError "Internal server error", Session.idle samplePool) :=
  have h := verification_is_atomic (fun k => decide (k = 3)) samplePool 1 [1, 2]
    (JSText.text (js "approve")) none (sampleQueueItem 1 1) [] (by decide) (by decide)
    (by decide)
  have hno : ¬ ∀ k, k ≤ 4 → (fun k => decide (k = 3)) k = false := by
    intro hall
    have := hall 3 (by omega)
    simp at this
  ⟨(h.1.resolve_right (fun hb => hno hb.1)).2, (h.2.resolve_right (fun hb => hno hb.1)).2⟩

end MapTag
